import Mathlib

/-!
Verification development for the Sentinel monitor-process supervisor.

This file gives a shallow embedding of the subprocess lifecycle supervisor
implemented in `src/main/main.ts` (functions `startSentinelMonitor`,
`stopSentinelMonitor`, `checkSentinelStatus`, `isProcessRunning` and the
stream/close/error handlers installed on the spawned child), and of the
stdout/stderr handlers of the backend service in
`src/backend/sentinel-service.js`.

Modelling conventions:
- JavaScript strings are Lean `String`s; the JS operations used by the code
  (`includes`, `trim`, `split`) are re-implemented as structurally recursive
  functions over `List Char` so that they evaluate inside the kernel.
- The OS is abstracted by explicit oracles: `alive : Nat → Bool` for the
  `process.kill(pid, 0)` liveness probe, `fsExistsAt` for `fs.existsSync`,
  `whichFinds` for the `where`/`which` lookup, and `spawnResult` for the
  outcome of `spawn`.  An `Except String Unit` models the possibly-throwing
  platform kill primitive inside `stopSentinelMonitor`'s try/catch.
- Messages sent to the renderer via `webContents.send` are collected in a
  `List Msg`; OS-level commands issued (kill signals, spawns) are collected
  in a `List Act`.
- The asynchronous grace delay (`setTimeout(..., 1500)`) is modelled by a
  list of child events (`windowEvents`) processed between the spawn and the
  post-delay checks, plus a second liveness oracle `alive2` for the probe
  performed after the delay.
-/

namespace SentinelSup

/-- JS `String.prototype.includes` restricted to pattern search:
`containsSub pat s = true` iff `pat` occurs as a contiguous substring of `s`. -/
def containsSub (pat : List Char) : List Char → Bool
  | [] => pat.isEmpty
  | c :: tail => pat.isPrefixOf (c :: tail) || containsSub pat tail

/-- `s.includes(pat)` from JS. -/
def includesStr (s pat : String) : Bool := containsSub pat.data s.data

/-- `s.trim()` from JS: strip leading and trailing whitespace. -/
def jsTrim (s : String) : String :=
  ⟨((s.data.dropWhile Char.isWhitespace).reverse.dropWhile Char.isWhitespace).reverse⟩

/-- Character-list version of JS `s.split(sep)` for a one-character separator. -/
def splitChars (sep : Char) : List Char → List (List Char)
  | [] => [[]]
  | c :: cs =>
    let r := splitChars sep cs
    if c = sep then [] :: r
    else
      match r with
      | h :: t => (c :: h) :: t
      | [] => [[c]]

/-- `s.split(sep)` from JS (single-character separator, as used by the source). -/
def jsSplit (sep : Char) (s : String) : List String :=
  (splitChars sep s.data).map (fun l => ⟨l⟩)

/-- JS truthiness of a `string | null` value (`null` and `""` are falsy). -/
def jsTruthyStr : Option String → Bool
  | none => false
  | some s => !(s == "")

/-- JS truthiness of a `number | undefined` value (`undefined` and `0` are falsy). -/
def jsTruthyNum : Option Nat → Bool
  | none => false
  | some n => !(n == 0)

/-- `process.platform` values distinguished by the source. -/
inductive Platform
  | win32
  | darwin
  | linux
deriving DecidableEq, Repr

def isWin32 : Platform → Bool
  | .win32 => true
  | _ => false

/-- Ambient process environment read by the supervisor. -/
structure Env where
  platform : Platform
  /-- `process.env.NODE_ENV === 'development' || process.defaultApp` -/
  isDev : Bool
  /-- `process.env.SENTINEL_INTEGRATED === 'true'` -/
  integratedEnvVar : Bool
deriving DecidableEq, Repr

/-- A `ChildProcess` handle; its `pid` property may be `undefined`. -/
structure Handle where
  pid : Option Nat
deriving DecidableEq, Repr

/-- Module-level mutable state of `main.ts` used by the supervisor:
`sentinelProcess`, `sentinelUserId`, `isRunningAsAdmin`,
`appConfig.requireAdminPrivileges`. -/
structure SessionState where
  sentinelProcess : Option Handle
  sentinelUserId : Option String
  isRunningAsAdmin : Bool
  requireAdminPrivileges : Bool
deriving DecidableEq, Repr

/-- Payload of a `sentinel-status-update` message.  Fields that a given
`send` call omits are `none`; `userId` is `some none` when the call passes an
explicit `null`. -/
structure StatusUpdate where
  running : Bool
  status : String
  pid : Option Nat
  userId : Option (Option String)
  error : Option String
  admin : Option Bool
  requiresAdmin : Option Bool
deriving DecidableEq, Repr

def mkUpdate (running : Bool) (status : String) (pid : Option Nat)
    (userId : Option (Option String)) (error : Option String)
    (admin : Option Bool) (requiresAdmin : Option Bool) : StatusUpdate :=
  ⟨running, status, pid, userId, error, admin, requiresAdmin⟩

/-- Messages sent to the renderer over IPC. -/
inductive Msg
  | statusUpdate (u : StatusUpdate)
  /-- `sentinel-output` -/
  | output (line : String)
  /-- `sentinel-error` -/
  | errorLine (line : String)
  /-- `sentinel-warning` -/
  | warnLine (line : String)
  /-- `sentinel-stopped` -/
  | stoppedEvent (code : Option Int) (signal : Option String)
deriving DecidableEq, Repr

/-- Resolved interpreter: either the venv interpreter at a path under
`.venv`, or a system interpreter referenced by command name. -/
inductive PyExe
  | venvExe (path : List String)
  | systemExe (name : String)
deriving DecidableEq, Repr

/-- OS-level commands issued by the supervisor. -/
inductive Act
  /-- `taskkill /pid p /f /t` on win32, `process.kill(p, 'SIGTERM')` otherwise. -/
  | killAct (pid : Nat)
  /-- `spawn(exe, args, opts)` that produced a child with the given pid. -/
  | spawnAct (exe : PyExe) (pid : Nat)
deriving DecidableEq, Repr

/-- `process.platform === 'win32' && !isDev && appConfig.requireAdminPrivileges`:
the `requiresAdmin` expression attached to the status updates. -/
def reqAdmin (env : Env) (flag : Bool) : Bool :=
  isWin32 env.platform && !env.isDev && flag

/-- `sentinelProcess?.pid` as an optional number. -/
def trackedPid (st : SessionState) : Option Nat :=
  st.sentinelProcess.bind Handle.pid

/-- `isProcessRunning(pid)` from `main.ts`: `false` on a falsy pid, otherwise
the result of the `process.kill(pid, 0)` probe (the `alive` oracle). -/
def isProcessRunning (alive : Nat → Bool) : Option Nat → Bool
  | none => false
  | some pid => if pid = 0 then false else alive pid

/-! ### Output classification markers (main.ts stream handlers) -/

def integratedMarker : String := "SENTINEL_INTEGRATED=true detected"

def readyMarker : String := "SENTINEL_READY"

/-- `errorOutput.includes('FATAL') || errorOutput.includes('CRITICAL') ||
errorOutput.includes('Traceback')` from the stderr handler. -/
def fatalMarkers (s : String) : Bool :=
  includesStr s "FATAL" || includesStr s "CRITICAL" || includesStr s "Traceback"

/-- Per-start closure variables of `startSentinelMonitor`:
`isReady`, `earlyExit`, `detectedIntegratedMode`. -/
structure StartCtx where
  isReady : Bool
  earlyExit : Bool
  detectedIntegratedMode : Bool
deriving DecidableEq, Repr

def ctx0 : StartCtx := ⟨false, false, false⟩

/-- Result of running one event handler: new module state, new closure
variables, messages sent. -/
structure HandlerOut where
  state : SessionState
  ctx : StartCtx
  msgs : List Msg
deriving DecidableEq, Repr

/-- The `sentinelProcess.stdout.on('data')` handler from `startSentinelMonitor`
(`main.ts`).  `startUserId` is the `userId` argument captured by the closure;
`currentPid` is the pid captured just after the spawn. -/
def onStdoutData (env : Env) (currentPid : Nat) (startUserId : String)
    (data : String) (st : SessionState) (ctx : StartCtx) : HandlerOut :=
  -- `if (sentinelProcess?.pid !== currentPid) return;`
  if trackedPid st ≠ some currentPid then ⟨st, ctx, []⟩
  else
    let output := jsTrim data
    let p1 : StartCtx × List Msg :=
      if includesStr output integratedMarker then
        ({ ctx with detectedIntegratedMode := true },
         [Msg.statusUpdate (mkUpdate true "Running (Integrated)" (some currentPid)
            (some (some startUserId)) none (some st.isRunningAsAdmin)
            (some (reqAdmin env st.requireAdminPrivileges)))])
      else (ctx, [])
    let p2 : StartCtx × List Msg :=
      if includesStr output readyMarker then
        let c := { p1.1 with isReady := true }
        if !c.detectedIntegratedMode then
          (c, [Msg.statusUpdate (mkUpdate true "Running" (some currentPid)
                 (some st.sentinelUserId) none (some st.isRunningAsAdmin)
                 (some (reqAdmin env st.requireAdminPrivileges)))])
        else (c, [])
      else (p1.1, [])
    ⟨st, p2.1, p1.2 ++ p2.2 ++ [Msg.output output]⟩

/-- The `sentinelProcess.stderr.on('data')` handler from `startSentinelMonitor`. -/
def onStderrData (env : Env) (currentPid : Nat) (data : String)
    (st : SessionState) (ctx : StartCtx) : HandlerOut :=
  if trackedPid st ≠ some currentPid then ⟨st, ctx, []⟩
  else
    let errorOutput := jsTrim data
    ⟨st, ctx,
      [Msg.errorLine errorOutput] ++
      (if fatalMarkers errorOutput then
        [Msg.statusUpdate (mkUpdate false "Error" (some currentPid)
           (some st.sentinelUserId) (some errorOutput) (some st.isRunningAsAdmin)
           (some (reqAdmin env st.requireAdminPrivileges)))]
       else [])⟩

/-- JS template rendering of a `number | null` exit code. -/
def jsShowIntOpt : Option Int → String
  | none => "null"
  | some n => toString n

/-- JS template rendering of a `string | null` signal. -/
def jsShowStrOpt : Option String → String
  | none => "null"
  | some s => s

/-- The status string `` `Exited (code ${code}, signal ${signal})` ``. -/
def exitedStatus (code : Option Int) (signal : Option String) : String :=
  "Exited (code " ++ jsShowIntOpt code ++ ", signal " ++ jsShowStrOpt signal ++ ")"

/-- Status computed by the `close` handler of `startSentinelMonitor`. -/
def closeStatus (detectedIntegratedMode : Bool) (code : Option Int)
    (signal : Option String) : String :=
  if detectedIntegratedMode then "Error: Integrated Monitor Crashed"
  else if code = some 0 then "Stopped" else exitedStatus code signal

/-- The `sentinelProcess.on('close')` handler from `startSentinelMonitor`.
Note that, unlike the stream handlers, it has no early-return pid guard:
only the clearing of `sentinelProcess` is conditioned on
`sentinelProcess.pid === currentPid`; the `sentinel-stopped` and
`sentinel-status-update` messages are sent unconditionally. -/
def onClose (env : Env) (currentPid : Nat) (code : Option Int)
    (signal : Option String) (st : SessionState) (ctx : StartCtx) : HandlerOut :=
  let ctx1 := { ctx with earlyExit := true }
  let status := closeStatus ctx1.detectedIntegratedMode code signal
  let st1 := if trackedPid st = some currentPid then
      { st with sentinelProcess := none } else st
  ⟨st1, ctx1,
    [Msg.stoppedEvent code signal,
     Msg.statusUpdate (mkUpdate false status (some currentPid)
       (some st1.sentinelUserId) none (some st1.isRunningAsAdmin)
       (some (reqAdmin env st1.requireAdminPrivileges)))]⟩

/-- The `sentinelProcess.on('error')` handler from `startSentinelMonitor`. -/
def onErrorEvent (env : Env) (currentPid : Nat) (message : String)
    (st : SessionState) (ctx : StartCtx) : HandlerOut :=
  let ctx1 := { ctx with earlyExit := true }
  let st1 := if trackedPid st = some currentPid then
      { st with sentinelProcess := none } else st
  ⟨st1, ctx1,
    [Msg.errorLine ("Spawn/runtime error: " ++ message),
     Msg.statusUpdate (mkUpdate false "Failed to Start/Run" (some currentPid)
       (some st1.sentinelUserId) (some message) (some st1.isRunningAsAdmin)
       (some (reqAdmin env st1.requireAdminPrivileges)))]⟩

/-- Events delivered by the child process during the grace window. -/
inductive ChildEvent
  | stdoutData (chunk : String)
  | stderrData (chunk : String)
  | closed (code : Option Int) (signal : Option String)
  | spawnError (message : String)
deriving DecidableEq, Repr

def handleEvent (env : Env) (currentPid : Nat) (startUserId : String)
    (e : ChildEvent) (st : SessionState) (ctx : StartCtx) : HandlerOut :=
  match e with
  | .stdoutData s => onStdoutData env currentPid startUserId s st ctx
  | .stderrData s => onStderrData env currentPid s st ctx
  | .closed c sg => onClose env currentPid c sg st ctx
  | .spawnError m => onErrorEvent env currentPid m st ctx

/-- Sequential delivery of the child's events on the event loop. -/
def processEvents (env : Env) (currentPid : Nat) (startUserId : String) :
    List ChildEvent → SessionState → StartCtx → HandlerOut
  | [], st, ctx => ⟨st, ctx, []⟩
  | e :: es, st, ctx =>
    let o := handleEvent env currentPid startUserId e st ctx
    let rest := processEvents env currentPid startUserId es o.state o.ctx
    ⟨rest.state, rest.ctx, o.msgs ++ rest.msgs⟩

/-! ### stopSentinelMonitor -/

/-- Boolean success / message pair returned by `stopSentinelMonitor`. -/
structure OpResult where
  success : Bool
  message : String
deriving DecidableEq, Repr

structure StopOut where
  result : OpResult
  state : SessionState
  msgs : List Msg
  acts : List Act
deriving DecidableEq, Repr

/-- `stopSentinelMonitor` from `main.ts`.  `killResult` models the
platform-specific termination primitive inside the `try` block
(`exec('taskkill ...')` on win32 never throws synchronously;
`process.kill(pid, 'SIGTERM')` may throw, e.g. `ESRCH`); a thrown error is
converted by the `catch` into a failure result, leaving the handle in place. -/
def stopSentinelMonitor (env : Env) (killResult : Except String Unit)
    (st : SessionState) : StopOut :=
  match st.sentinelProcess with
  | none =>
    ⟨⟨true, "Sentinel is not running"⟩, st,
     [Msg.statusUpdate (mkUpdate false "Stopped" none none none
        (some st.isRunningAsAdmin)
        (some (reqAdmin env st.requireAdminPrivileges)))], []⟩
  | some h =>
    match h.pid with
    | none =>
      ⟨⟨false, "Process PID is undefined"⟩,
       { st with sentinelProcess := none }, [], []⟩
    | some pid =>
      if pid = 0 then
        -- JS `if (!pid)` also fires on pid 0
        ⟨⟨false, "Process PID is undefined"⟩,
         { st with sentinelProcess := none }, [], []⟩
      else
        match killResult with
        | .error e => ⟨⟨false, e⟩, st, [], []⟩
        | .ok _ =>
          ⟨⟨true, "Sentinel stop signal sent"⟩,
           { st with sentinelProcess := none }, [], [Act.killAct pid]⟩

/-! ### Interpreter resolution and startSentinelMonitor -/

/-- Candidate venv interpreter paths, in probe order (`main.ts` lines 522-537):
`.venv/Scripts/python.exe` on win32; `.venv/bin/python` then
`.venv/bin/python3` elsewhere. -/
def venvCandidates : Platform → List (List String)
  | .win32 => [[".venv", "Scripts", "python.exe"]]
  | _ => [[".venv", "bin", "python"], [".venv", "bin", "python3"]]

def systemPythonName (p : Platform) : String :=
  if isWin32 p then "python" else "python3"

/-- Interpreter fallback chain: first venv candidate that exists on disk,
else the system interpreter name provided the `where`/`which` lookup
succeeds with non-empty output, else failure. -/
def resolvePython (p : Platform) (fsExistsAt : List String → Bool)
    (whichFinds : String → Bool) : Option PyExe :=
  match (venvCandidates p).find? fsExistsAt with
  | some path => some (PyExe.venvExe path)
  | none =>
    if whichFinds (systemPythonName p) then
      some (PyExe.systemExe (systemPythonName p))
    else none

/-- Result object returned by `startSentinelMonitor`.  JS returns ad-hoc
objects; absent properties are `none`/`false` here. -/
structure StartResult where
  success : Bool
  message : Option String
  pid : Option Nat
  userId : Option String
  integrated : Bool
deriving DecidableEq, Repr

structure StartOut where
  result : StartResult
  state : SessionState
  msgs : List Msg
  acts : List Act
deriving DecidableEq, Repr

/-- The Electron main process's own pid (`process.pid`), abstract. -/
def appPid : Nat := 1

def scriptMissingMsg : String :=
  "Cannot find sentinel script at: <appPath>/src/python/sentinel.py"

def pythonNotFoundMsg (p : Platform) : String :=
  "Failed to find Python in venv or system PATH: System Python '" ++
    systemPythonName p ++ "' not found."

def spawnFailedMsg : String :=
  "Failed to start sentinel process (spawn returned null or no PID)"

def earlyCrashMsg : String :=
  "Sentinel process failed to start or crashed immediately"

def integratedCrashMsg : String :=
  "Integrated monitoring process crashed unexpectedly"

def noUserMsg : String := "No User ID provided"

/-- The `return` of the no-user-id branch together with its status update. -/
def noUserOut (env : Env) (st : SessionState) (msgsA : List Msg)
    (actsA : List Act) : StartOut :=
  ⟨⟨false, some noUserMsg, none, none, false⟩, st,
   msgsA ++ [Msg.statusUpdate (mkUpdate false "Stopped (No User ID)" none none
     none (some st.isRunningAsAdmin)
     (some (reqAdmin env st.requireAdminPrivileges)))],
   actsA⟩

/-- Spawn-failure branch (`!sentinelProcess || !sentinelProcess.pid`). -/
def spawnFailOut (st : SessionState) (msgs : List Msg) (acts : List Act) :
    StartOut :=
  ⟨⟨false, some spawnFailedMsg, none, none, false⟩,
   { st with sentinelProcess := none },
   msgs ++ [Msg.errorLine spawnFailedMsg,
     Msg.statusUpdate (mkUpdate false "Error: Spawn Failed" none none none
       none none)],
   acts⟩

/-- The restart guard at the top of `startSentinelMonitor` (lines 457-465):
stop a still-running previous child, or clear a stale handle. -/
def startGuard (env : Env) (alive1 : Nat → Bool)
    (killResult : Except String Unit) (stU : SessionState) :
    SessionState × List Msg × List Act :=
  match stU.sentinelProcess with
  | some h =>
    if isProcessRunning alive1 h.pid then
      let so := stopSentinelMonitor env killResult stU
      (so.state, so.msgs, so.acts)
    else ({ stU with sentinelProcess := none }, [], [])
  | none => (stU, [], [])

/-- `startSentinelMonitor(userId)` from `main.ts`.

Oracles: `scriptExists` is `fs.existsSync(pythonScriptPath)`; `fsExistsAt`
probes venv interpreter paths; `whichFinds` is the `where`/`which` check;
`spawnResult` is the handle returned by `spawn` (or `none`); `alive1` backs
the `isProcessRunning` probe in the initial restart guard; `killResult` is
passed to the embedded `stopSentinelMonitor` call; `windowEvents` are the
child events delivered during the 1.5 s grace delay; `alive2` backs the
`isProcessRunning` probes performed after the delay. -/
def startSentinelMonitor (env : Env) (scriptExists : Bool)
    (fsExistsAt : List String → Bool) (whichFinds : String → Bool)
    (spawnResult : Option Handle) (alive1 : Nat → Bool)
    (killResult : Except String Unit) (windowEvents : List ChildEvent)
    (alive2 : Nat → Bool) (userId : Option String) (st0 : SessionState) :
    StartOut :=
  -- `sentinelUserId = userId;`
  let stU : SessionState := { st0 with sentinelUserId := userId }
  -- restart guard / stale-handle clearing
  let guarded := startGuard env alive1 killResult stU
  let st := guarded.1
  let msgsA := guarded.2.1
  let actsA := guarded.2.2
  match userId with
  | none => noUserOut env st msgsA actsA
  | some uid =>
    if uid = "" then noUserOut env st msgsA actsA
    else
      -- integrated no-spawn branch
      let alreadyRunningWithAdmin :=
        st.isRunningAsAdmin && reqAdmin env st.requireAdminPrivileges
      if alreadyRunningWithAdmin && env.integratedEnvVar then
        ⟨⟨true, none, some appPid, some uid, true⟩, st,
         msgsA ++ [Msg.statusUpdate (mkUpdate true "Running (Integrated)"
           (some appPid) (some (some uid)) none (some st.isRunningAsAdmin)
           (some (reqAdmin env st.requireAdminPrivileges)))],
         actsA⟩
      else if !scriptExists then
        ⟨⟨false, some scriptMissingMsg, none, none, false⟩, st,
         msgsA ++ [Msg.errorLine scriptMissingMsg,
           Msg.statusUpdate (mkUpdate false "Error: Script Missing" none none
             none (some st.isRunningAsAdmin)
             (some (reqAdmin env st.requireAdminPrivileges)))],
         actsA⟩
      else
        -- venv-missing warning (sent before the `where`/`which` verification)
        let warnMsgs : List Msg :=
          match (venvCandidates env.platform).find? fsExistsAt with
          | some _ => []
          | none => [Msg.warnLine ("Python executable not found in venv. " ++
              "Trying system Python: " ++ systemPythonName env.platform ++ ".")]
        match resolvePython env.platform fsExistsAt whichFinds with
        | none =>
          ⟨⟨false, some (pythonNotFoundMsg env.platform), none, none, false⟩,
           st,
           msgsA ++ warnMsgs ++
             [Msg.errorLine (pythonNotFoundMsg env.platform),
              Msg.statusUpdate (mkUpdate false "Error: Python Not Found" none
                none none none none)],
           actsA⟩
        | some pyExe =>
          let msgsB := warnMsgs ++
            [Msg.statusUpdate (mkUpdate false "Starting..." none none none
               none none)]
          -- `sentinelProcess = null;` then `sentinelProcess = spawn(...)`
          let stPre : SessionState := { st with sentinelProcess := none }
          match spawnResult with
          | none => spawnFailOut stPre (msgsA ++ msgsB) actsA
          | some h =>
            match h.pid with
            | none =>
              spawnFailOut { stPre with sentinelProcess := none }
                (msgsA ++ msgsB) actsA
            | some cp =>
              if cp = 0 then
                spawnFailOut { stPre with sentinelProcess := none }
                  (msgsA ++ msgsB) actsA
              else
                let stTracked : SessionState :=
                  { stPre with sentinelProcess := some h }
                let msgsC := [Msg.statusUpdate (mkUpdate true "Initializing"
                  (some cp) (some (some uid)) none
                  (some stTracked.isRunningAsAdmin)
                  (some (reqAdmin env stTracked.requireAdminPrivileges)))]
                let po := processEvents env cp uid windowEvents stTracked ctx0
                let baseMsgs := msgsA ++ msgsB ++ msgsC ++ po.msgs
                let baseActs := actsA ++ [Act.spawnAct pyExe cp]
                if po.ctx.detectedIntegratedMode then
                  if po.state.sentinelProcess.isSome &&
                      isProcessRunning alive2 (some cp) then
                    ⟨⟨true, none, some cp, some uid, true⟩, po.state,
                     baseMsgs, baseActs⟩
                  else
                    ⟨⟨false, some integratedCrashMsg, none, none, false⟩,
                     po.state, baseMsgs, baseActs⟩
                else if po.ctx.earlyExit ||
                    (decide (trackedPid po.state = some cp) &&
                     !(isProcessRunning alive2 (some cp))) then
                  let stF := if trackedPid po.state = some cp then
                      { po.state with sentinelProcess := none }
                    else po.state
                  ⟨⟨false, some earlyCrashMsg, none, none, false⟩, stF,
                   baseMsgs, baseActs⟩
                else if !po.ctx.isReady && trackedPid po.state = some cp then
                  ⟨⟨true, none, some cp, some uid, false⟩, po.state,
                   baseMsgs ++ [Msg.statusUpdate (mkUpdate true "Initializing"
                     (some cp) (some po.state.sentinelUserId) none
                     (some po.state.isRunningAsAdmin)
                     (some (reqAdmin env po.state.requireAdminPrivileges)))],
                   baseActs⟩
                else
                  ⟨⟨true, none, some cp, some uid, false⟩, po.state,
                   baseMsgs, baseActs⟩

/-! ### checkSentinelStatus -/

/-- Snapshot returned by `checkSentinelStatus`. -/
structure StatusSnapshot where
  running : Bool
  status : String
  admin : Bool
  requiresAdmin : Bool
  lastError : Option String
  pid : Option Nat
  userId : Option String
deriving DecidableEq, Repr

/-- `checkSentinelStatus` from `main.ts`.  Returns the snapshot together
with the (possibly self-healed) module state. -/
def checkSentinelStatus (env : Env) (alive : Nat → Bool) (st : SessionState) :
    StatusSnapshot × SessionState :=
  let sra := reqAdmin env st.requireAdminPrivileges
  match st.sentinelProcess with
  | none =>
    (⟨false, "Stopped", st.isRunningAsAdmin, sra, none, none,
      st.sentinelUserId⟩, st)
  | some h =>
    let stale : StatusSnapshot × SessionState :=
      (⟨false, "Crashed / Stale Handle", st.isRunningAsAdmin, sra,
        some "Process handle existed but process was not running.", h.pid,
        st.sentinelUserId⟩,
       { st with sentinelProcess := none })
    match h.pid with
    | none => stale
    | some p =>
      if p = 0 then stale
      else if alive p then
        (⟨true, "Running", st.isRunningAsAdmin, sra, none, some p,
          st.sentinelUserId⟩, st)
      else stale

/-! ### Backend service output handlers (sentinel-service.js) -/

/-- The `processInfo` record of `sentinel-service.js`. -/
structure ProcessInfo where
  running : Bool
  pid : Option Nat
  startTime : Option Nat
  adminMode : Bool
  adminRequired : Bool
  userId : Option String
  monitorStatus : List (String × Bool)
  lastUpdate : Option Nat
  lastError : Option String
deriving DecidableEq, Repr

/-- `processInfo.monitorStatus[name] = v` (JS object property assignment). -/
def setMonitor (l : List (String × Bool)) (k : String) (v : Bool) :
    List (String × Bool) :=
  if l.any (fun p => p.1 == k) then
    l.map (fun p => if p.1 == k then (k, v) else p)
  else l ++ [(k, v)]

/-- The admin-requirement markers checked by the service handlers. -/
def svcAdminMarker (s : String) : Bool :=
  includesStr s "requires administrator privileges" ||
    includesStr s "run as administrator"

/-- One iteration of the `statuses.forEach` loop in the service's
`Monitor Status` parsing block. -/
def monitorStep (acc : ProcessInfo) (s : String) : ProcessInfo :=
  let parts := (jsSplit ':' s).map jsTrim
  match parts.get? 0, parts.get? 1 with
  | some name, some stv =>
    if name ≠ "" ∧ stv ≠ "" then
      { acc with monitorStatus := setMonitor acc.monitorStatus name (stv == "Running") }
    else acc
  | _, _ => acc

/-- The `Monitor Status` parsing block of the service's stdout handler. -/
def parseMonitorLine (output : String) (info : ProcessInfo) : ProcessInfo :=
  match (jsSplit '|' output).get? 1 with
  | none => info
  | some seg =>
    let statusLine := jsTrim seg
    if statusLine = "" then info
    else ((jsSplit '|' statusLine).map jsTrim).foldl monitorStep info

/-- The `sentinelProcess.stdout.on('data')` handler of `sentinel-service.js`. -/
def svcStdoutData (data : String) (info : ProcessInfo) : ProcessInfo :=
  let output := jsTrim data
  let i1 := if includesStr output "Admin privileges: YES" then
      { info with adminMode := true } else info
  let i2 := if svcAdminMarker output then
      { i1 with adminRequired := true, lastError := some "Administrator privileges required" }
    else i1
  if includesStr output "Monitor Status" then parseMonitorLine output i2 else i2

/-- The `sentinelProcess.stderr.on('data')` handler of `sentinel-service.js`. -/
def svcStderrData (data : String) (info : ProcessInfo) : ProcessInfo :=
  let errorOutput := jsTrim data
  if svcAdminMarker errorOutput then
    { info with adminRequired := true, lastError := some "Administrator privileges required" }
  else if !(jsTruthyStr info.lastError) then
    { info with lastError := some errorOutput }
  else info

/-! ### Admin-privileges configuration (main.ts lines 13-15 and 319-329) -/

/-- `const appConfig = { requireAdminPrivileges: false }` -/
def initialRequireAdminPrivileges : Bool := false

/-- Effect of the `app.whenReady` handler on
`appConfig.requireAdminPrivileges`: if running as admin the flag is left
alone; otherwise, outside dev mode, the only assignment in the program
writes `false`. -/
def whenReadyFlagUpdate (isAdmin isDev : Bool) (flag : Bool) : Bool :=
  if isAdmin then flag
  else if !isDev then false
  else flag

/-! ### Interleaving model for kill-signal delivery (used for P1) -/

/-- A scheduler step: either the supervisor issues an OS command, or the OS
completes a previously issued kill (the signalled process actually dies). -/
inductive SchedStep
  | issue (a : Act)
  | deliverKill (pid : Nat)
deriving DecidableEq, Repr

/-- Effect of one step on the set of live child pids.  Issuing a kill does
not by itself remove the process: termination is asynchronous and only the
`deliverKill` step removes the pid. -/
def applyStep (live : List Nat) : SchedStep → List Nat
  | .issue (Act.spawnAct _ p) => live ++ [p]
  | .issue (Act.killAct _) => live
  | .deliverKill p => live.erase p

/-- All intermediate live sets along a schedule. -/
def liveTrace (init : List Nat) : List SchedStep → List (List Nat)
  | [] => [init]
  | s :: rest => init :: liveTrace (applyStep init s) rest

def issuedActs (sched : List SchedStep) : List Act :=
  sched.filterMap (fun s => match s with
    | .issue a => some a
    | .deliverKill _ => none)

def killIssuedBefore (sched : List SchedStep) (i : Nat) (p : Nat) : Bool :=
  (sched.take i).any (fun s => decide (s = SchedStep.issue (Act.killAct p)))

/-- A schedule is a valid interleaving for a command sequence `acts` when it
issues exactly those commands in program order and delivers each kill only
after it was issued. -/
def validSchedule (acts : List Act) (sched : List SchedStep) : Bool :=
  decide (issuedActs sched = acts) &&
  (List.range sched.length).all (fun i =>
    match sched.get? i with
    | some (SchedStep.deliverKill p) => killIssuedBefore sched i p
    | _ => true)

/-- The singleton-session property claimed by the spec (P1), stated over all
valid interleavings of the command sequence the supervisor issues. -/
def atMostOneLiveChild (init : List Nat) (acts : List Act) : Prop :=
  ∀ sched : List SchedStep, validSchedule acts sched = true →
    ∀ l ∈ liveTrace init sched, l.length ≤ 1

/-- Last status string published in a message list. -/
def lastStatusOf (msgs : List Msg) : Option String :=
  (msgs.filterMap (fun m => match m with
    | Msg.statusUpdate u => some u.status
    | _ => none)).getLast?

/-- The spec's `crashed`/`error` status class, as realised by the concrete
status strings of the source. -/
def IsCrashErrorStatus (s : String) : Prop :=
  s = "Error: Integrated Monitor Crashed" ∨ s = "Error" ∨
    s = "Failed to Start/Run" ∨ s = "Crashed / Stale Handle" ∨
    ("Exited (code " : String).data.isPrefixOf s.data = true

end SentinelSup

/-! ## Helper lemmas -/

namespace SentinelSup

theorem data_append (a b : String) : (a ++ b).data = a.data ++ b.data := rfl

theorem isPrefixOf_append (l r : List Char) : l.isPrefixOf (l ++ r) = true := by
  induction l with
  | nil => simp [List.isPrefixOf]
  | cons c cs ih => simp [List.isPrefixOf, ih]

theorem exitedStatus_data (code : Option Int) (signal : Option String) :
    (exitedStatus code signal).data =
      ("Exited (code " : String).data ++
        ((jsShowIntOpt code).data ++ ((", signal " : String).data ++
          ((jsShowStrOpt signal).data ++ (")" : String).data))) := by
  simp [exitedStatus, data_append, List.append_assoc]

theorem exitedStatus_isPrefix (code : Option Int) (signal : Option String) :
    ("Exited (code " : String).data.isPrefixOf (exitedStatus code signal).data
      = true := by
  rw [exitedStatus_data]
  exact isPrefixOf_append _ _

theorem exitedStatus_ne (code : Option Int) (signal : Option String)
    (t : String)
    (ht : ("Exited (code " : String).data.isPrefixOf t.data = false) :
    exitedStatus code signal ≠ t := by
  intro h
  have h2 := exitedStatus_isPrefix code signal
  rw [h, ht] at h2
  exact Bool.false_ne_true h2

theorem closeStatus_true (c : Option Int) (s : Option String) :
    closeStatus true c s = "Error: Integrated Monitor Crashed" := by
  simp [closeStatus]

theorem closeStatus_false (c : Option Int) (s : Option String) :
    closeStatus false c s = if c = some 0 then "Stopped" else exitedStatus c s := by
  simp [closeStatus]

theorem closeStatus_stopped_iff (d : Bool) (c : Option Int)
    (s : Option String) :
    closeStatus d c s = "Stopped" ↔ (d = false ∧ c = some 0) := by
  cases d with
  | true =>
    rw [closeStatus_true]
    constructor
    · intro h
      exact absurd h (by decide)
    · intro h
      exact absurd h.1 (by decide)
  | false =>
    rw [closeStatus_false]
    by_cases hc : c = some 0
    · simp [hc]
    · rw [if_neg hc]
      constructor
      · intro h
        exact absurd h (exitedStatus_ne c s "Stopped" (by decide))
      · intro h
        exact absurd h.2 hc

theorem closeStatus_crash (d : Bool) (c : Option Int) (s : Option String)
    (h : d = true ∨ c ≠ some 0) :
    IsCrashErrorStatus (closeStatus d c s) := by
  cases d with
  | true =>
    rw [closeStatus_true]
    exact Or.inl rfl
  | false =>
    rcases h with h | h
    · exact absurd h (by decide)
    · rw [closeStatus_false, if_neg h]
      exact Or.inr (Or.inr (Or.inr (Or.inr (exitedStatus_isPrefix c s))))

/-! ## C1: OS exit always wins -/

/-- C1: for a `close` event of the currently tracked child, the handler
clears the process handle and the published status is `Stopped` exactly when
the exit code is 0 and integrated mode was not detected; when the code is
non-zero (or `null`) or integrated mode had been announced, the published
status is in the crashed/error class, regardless of any classifier-derived
state carried in `ctx`. -/
theorem sentinel_C1_exit_always_wins (env : Env) (currentPid : Nat)
    (code : Option Int) (signal : Option String) (st : SessionState)
    (ctx : StartCtx) (h : st.sentinelProcess = some ⟨some currentPid⟩) :
    (onClose env currentPid code signal st ctx).state.sentinelProcess = none ∧
    lastStatusOf (onClose env currentPid code signal st ctx).msgs =
      some (closeStatus ctx.detectedIntegratedMode code signal) ∧
    (closeStatus ctx.detectedIntegratedMode code signal = "Stopped" ↔
      (ctx.detectedIntegratedMode = false ∧ code = some 0)) ∧
    ((ctx.detectedIntegratedMode = true ∨ code ≠ some 0) →
      IsCrashErrorStatus (closeStatus ctx.detectedIntegratedMode code signal)) := by
  have htracked : trackedPid st = some currentPid := by
    simp [trackedPid, h]
  refine ⟨?_, ?_, closeStatus_stopped_iff _ _ _, closeStatus_crash _ _ _⟩
  · simp [onClose, htracked]
  · simp [onClose, htracked, lastStatusOf, mkUpdate]

/-- Witness for C1 at a concrete tracked child. -/
theorem sentinel_C1_exit_always_wins_witness :
    (onClose ⟨Platform.linux, false, false⟩ 41 (some 0) none
        ⟨some ⟨some 41⟩, some "u", false, false⟩ ctx0).state.sentinelProcess
      = none ∧
    lastStatusOf (onClose ⟨Platform.linux, false, false⟩ 41 (some 0) none
        ⟨some ⟨some 41⟩, some "u", false, false⟩ ctx0).msgs =
      some (closeStatus ctx0.detectedIntegratedMode (some 0) none) ∧
    (closeStatus ctx0.detectedIntegratedMode (some 0) none = "Stopped" ↔
      (ctx0.detectedIntegratedMode = false ∧ (some 0 : Option Int) = some 0)) ∧
    ((ctx0.detectedIntegratedMode = true ∨ (some 0 : Option Int) ≠ some 0) →
      IsCrashErrorStatus (closeStatus ctx0.detectedIntegratedMode (some 0) none)) :=
  sentinel_C1_exit_always_wins ⟨Platform.linux, false, false⟩ 41 (some 0) none
    ⟨some ⟨some 41⟩, some "u", false, false⟩ ctx0 rfl

end SentinelSup

/-! ## C6: liveness reconciliation in checkSentinelStatus -/

namespace SentinelSup

/-- C6: while a handle with pid `p` is tracked, the snapshot's `running`
field equals the result of the `process.kill(p, 0)` liveness probe; when the
probe reports the pid dead the query returns `running = false` with the
crashed/stale status, sets `lastError`, and clears the stale handle; with no
tracked handle the query returns `running = false` and status `Stopped`. -/
theorem sentinel_C6_liveness_reconciliation (env : Env)
    (alive aliveB : Nat → Bool) (st stLive stNone : SessionState) (p : Nat)
    (h : st.sentinelProcess = some ⟨some p⟩) (hp : p ≠ 0)
    (hdead : alive p = false)
    (hL : stLive.sentinelProcess = some ⟨some p⟩)
    (hlive : aliveB p = true)
    (hN : stNone.sentinelProcess = none) :
    (checkSentinelStatus env alive st).1.running = alive p ∧
    (checkSentinelStatus env alive st).1.running = false ∧
    (checkSentinelStatus env alive st).1.status = "Crashed / Stale Handle" ∧
    (checkSentinelStatus env alive st).1.lastError =
      some "Process handle existed but process was not running." ∧
    (checkSentinelStatus env alive st).2.sentinelProcess = none ∧
    (checkSentinelStatus env aliveB stLive).1.running = aliveB p ∧
    (checkSentinelStatus env aliveB stLive).1.status = "Running" ∧
    (checkSentinelStatus env aliveB stNone).1.running = false ∧
    (checkSentinelStatus env aliveB stNone).1.status = "Stopped" := by
  refine ⟨?_, ?_, ?_, ?_, ?_, ?_, ?_, ?_, ?_⟩ <;>
    simp [checkSentinelStatus, h, hp, hdead, hL, hlive, hN]

/-- Witness for C6: pid 42 tracked, probes returning dead resp. alive. -/
theorem sentinel_C6_liveness_reconciliation_witness :
    (checkSentinelStatus ⟨Platform.linux, false, false⟩ (fun _ => false)
      ⟨some ⟨some 42⟩, some "u", true, false⟩).1.running = (fun _ => false) 42 ∧
    (checkSentinelStatus ⟨Platform.linux, false, false⟩ (fun _ => false)
      ⟨some ⟨some 42⟩, some "u", true, false⟩).1.running = false ∧
    (checkSentinelStatus ⟨Platform.linux, false, false⟩ (fun _ => false)
      ⟨some ⟨some 42⟩, some "u", true, false⟩).1.status
        = "Crashed / Stale Handle" ∧
    (checkSentinelStatus ⟨Platform.linux, false, false⟩ (fun _ => false)
      ⟨some ⟨some 42⟩, some "u", true, false⟩).1.lastError =
      some "Process handle existed but process was not running." ∧
    (checkSentinelStatus ⟨Platform.linux, false, false⟩ (fun _ => false)
      ⟨some ⟨some 42⟩, some "u", true, false⟩).2.sentinelProcess = none ∧
    (checkSentinelStatus ⟨Platform.linux, false, false⟩ (fun _ => true)
      ⟨some ⟨some 42⟩, some "u", true, false⟩).1.running = (fun _ => true) 42 ∧
    (checkSentinelStatus ⟨Platform.linux, false, false⟩ (fun _ => true)
      ⟨some ⟨some 42⟩, some "u", true, false⟩).1.status = "Running" ∧
    (checkSentinelStatus ⟨Platform.linux, false, false⟩ (fun _ => true)
      ⟨none, some "u", true, false⟩).1.running = false ∧
    (checkSentinelStatus ⟨Platform.linux, false, false⟩ (fun _ => true)
      ⟨none, some "u", true, false⟩).1.status = "Stopped" :=
  sentinel_C6_liveness_reconciliation ⟨Platform.linux, false, false⟩
    (fun _ => false) (fun _ => true) ⟨some ⟨some 42⟩, some "u", true, false⟩
    ⟨some ⟨some 42⟩, some "u", true, false⟩ ⟨none, some "u", true, false⟩ 42
    rfl (by decide) rfl rfl rfl rfl

/-! ## C7: idempotent stop -/

/-- The state after `stopSentinelMonitor` is the input state either
unchanged (no-op and caught-throw paths) or with the handle cleared. -/
theorem stop_state_cases (env : Env) (k : Except String Unit)
    (st : SessionState) :
    (stopSentinelMonitor env k st).state = st ∨
    (stopSentinelMonitor env k st).state = { st with sentinelProcess := none } := by
  rcases hsp : st.sentinelProcess with _ | h
  · left
    simp [stopSentinelMonitor, hsp]
  · rcases hpid : h.pid with _ | p
    · right
      simp [stopSentinelMonitor, hsp, hpid]
    · by_cases hz : p = 0
      · right
        simp [stopSentinelMonitor, hsp, hpid, hz]
      · cases k with
        | error e => left; simp [stopSentinelMonitor, hsp, hpid, hz]
        | ok u => right; simp [stopSentinelMonitor, hsp, hpid, hz]

/-- `stopSentinelMonitor` only ever issues kill commands. -/
theorem stop_acts_only_kill (env : Env) (k : Except String Unit)
    (st : SessionState) (a : Act) (ha : a ∈ (stopSentinelMonitor env k st).acts) :
    ∃ p, a = Act.killAct p := by
  rcases hsp : st.sentinelProcess with _ | h
  · simp [stopSentinelMonitor, hsp] at ha
  · rcases hpid : h.pid with _ | p
    · simp [stopSentinelMonitor, hsp, hpid] at ha
    · by_cases hz : p = 0
      · simp [stopSentinelMonitor, hsp, hpid, hz] at ha
      · cases k with
        | error e => simp [stopSentinelMonitor, hsp, hpid, hz] at ha
        | ok u =>
          simp [stopSentinelMonitor, hsp, hpid, hz] at ha
          exact ⟨p, ha⟩

/-- C7: stopping with no active child succeeds, publishes status `Stopped`
and leaves the state unchanged; and for any state, a second consecutive stop
call also returns an ordinary result — either a success, or (only when the
modelled platform kill primitive throws) the failure result produced by the
`catch` block, never a propagated exception. -/
theorem sentinel_C7_idempotent_stop (env : Env) (k1 k2 : Except String Unit)
    (st : SessionState) (h : st.sentinelProcess = none) :
    (stopSentinelMonitor env k1 st).result = ⟨true, "Sentinel is not running"⟩ ∧
    lastStatusOf (stopSentinelMonitor env k1 st).msgs = some "Stopped" ∧
    (stopSentinelMonitor env k1 st).state = st ∧
    (∀ st0 : SessionState,
      (stopSentinelMonitor env k2
        (stopSentinelMonitor env k1 st0).state).result.success = true ∨
      (∃ e, k2 = Except.error e ∧
        (stopSentinelMonitor env k2
          (stopSentinelMonitor env k1 st0).state).result = ⟨false, e⟩)) := by
  refine ⟨by simp [stopSentinelMonitor, h],
          by simp [stopSentinelMonitor, h, lastStatusOf, mkUpdate],
          by simp [stopSentinelMonitor, h], ?_⟩
  intro st0
  rcases hsp : st0.sentinelProcess with _ | hh
  · left
    simp [stopSentinelMonitor, hsp]
  · rcases hpid : hh.pid with _ | p
    · left
      simp [stopSentinelMonitor, hsp, hpid]
    · by_cases hz : p = 0
      · left
        simp [stopSentinelMonitor, hsp, hpid, hz]
      · cases k1 with
        | ok u =>
          left
          simp [stopSentinelMonitor, hsp, hpid, hz]
        | error e1 =>
          cases k2 with
          | ok u =>
            left
            simp [stopSentinelMonitor, hsp, hpid, hz]
          | error e2 =>
            right
            exact ⟨e2, rfl, by simp [stopSentinelMonitor, hsp, hpid, hz]⟩

/-- Witness for C7 on the empty state with a throwing second kill. -/
theorem sentinel_C7_idempotent_stop_witness :
    (stopSentinelMonitor ⟨Platform.win32, false, false⟩ (Except.ok ())
      ⟨none, none, true, false⟩).result = ⟨true, "Sentinel is not running"⟩ ∧
    lastStatusOf (stopSentinelMonitor ⟨Platform.win32, false, false⟩
      (Except.ok ()) ⟨none, none, true, false⟩).msgs = some "Stopped" ∧
    (stopSentinelMonitor ⟨Platform.win32, false, false⟩ (Except.ok ())
      ⟨none, none, true, false⟩).state = ⟨none, none, true, false⟩ ∧
    (∀ st0 : SessionState,
      (stopSentinelMonitor ⟨Platform.win32, false, false⟩
        (Except.error "ESRCH")
        (stopSentinelMonitor ⟨Platform.win32, false, false⟩ (Except.ok ())
          st0).state).result.success = true ∨
      (∃ e, (Except.error "ESRCH" : Except String Unit) = Except.error e ∧
        (stopSentinelMonitor ⟨Platform.win32, false, false⟩
          (Except.error "ESRCH")
          (stopSentinelMonitor ⟨Platform.win32, false, false⟩ (Except.ok ())
            st0).state).result = ⟨false, e⟩)) :=
  sentinel_C7_idempotent_stop ⟨Platform.win32, false, false⟩ (Except.ok ())
    (Except.error "ESRCH") ⟨none, none, true, false⟩ rfl

end SentinelSup

/-! ## C9: interpreter fallback chain -/

namespace SentinelSup

theorem reqAdmin_false (env : Env) : reqAdmin env false = false := by
  simp [reqAdmin]

theorem startGuard_state_cases (env : Env) (a : Nat → Bool)
    (k : Except String Unit) (st : SessionState) :
    (startGuard env a k st).1 = st ∨
    (startGuard env a k st).1 = { st with sentinelProcess := none } := by
  rcases hsp : st.sentinelProcess with _ | h
  · left
    simp [startGuard, hsp]
  · cases hrun : isProcessRunning a h.pid with
    | false =>
      right
      simp [startGuard, hsp, hrun]
    | true =>
      rcases stop_state_cases env k st with h1 | h1
      · left
        simp [startGuard, hsp, hrun, h1]
      · right
        simp [startGuard, hsp, hrun, h1]

theorem startGuard_fields (env : Env) (a : Nat → Bool)
    (k : Except String Unit) (st : SessionState) :
    (startGuard env a k st).1.requireAdminPrivileges =
      st.requireAdminPrivileges ∧
    (startGuard env a k st).1.isRunningAsAdmin = st.isRunningAsAdmin ∧
    (startGuard env a k st).1.sentinelUserId = st.sentinelUserId := by
  rcases startGuard_state_cases env a k st with h | h <;> rw [h] <;> simp

theorem startGuard_acts_only_kill (env : Env) (a : Nat → Bool)
    (k : Except String Unit) (st : SessionState) (x : Act)
    (hx : x ∈ (startGuard env a k st).2.2) : ∃ p, x = Act.killAct p := by
  rcases hsp : st.sentinelProcess with _ | h
  · simp [startGuard, hsp] at hx
  · cases hrun : isProcessRunning a h.pid with
    | false => simp [startGuard, hsp, hrun] at hx
    | true =>
      simp [startGuard, hsp, hrun] at hx
      exact stop_acts_only_kill env k st x hx

/-- When the interpreter resolution fails, `startSentinelMonitor` returns the
`Error: Python Not Found` failure before any spawn: its commands are exactly
those of the restart guard. -/
theorem start_python_not_found (env : Env) (fs : List String → Bool)
    (w : String → Bool) (spawnResult : Option Handle) (alive1 : Nat → Bool)
    (k : Except String Unit) (events : List ChildEvent) (alive2 : Nat → Bool)
    (uid : String) (st : SessionState)
    (hres : resolvePython env.platform fs w = none) (huid : uid ≠ "")
    (hflag : st.requireAdminPrivileges = false) :
    (startSentinelMonitor env true fs w spawnResult alive1 k events alive2
      (some uid) st).result =
        ⟨false, some (pythonNotFoundMsg env.platform), none, none, false⟩ ∧
    (startSentinelMonitor env true fs w spawnResult alive1 k events alive2
      (some uid) st).acts =
        (startGuard env alive1 k { st with sentinelUserId := some uid }).2.2 := by
  obtain ⟨hf, -, -⟩ :=
    startGuard_fields env alive1 k { st with sentinelUserId := some uid }
  have hreqA : reqAdmin env ((startGuard env alive1 k
      { st with sentinelUserId := some uid }).1.requireAdminPrivileges)
        = false := by
    rw [hf]
    simp [hflag, reqAdmin]
  constructor <;>
    simp [startSentinelMonitor, huid, hres, hreqA]

/-- C9: the interpreter is resolved venv-first (by existence probe on the
platform-specific path under `.venv`), fell back to the system interpreter
name only when the `where`/`which` verification succeeds, and when neither
resolves the launch fails with the interpreter-not-found result without
issuing any spawn command. -/
theorem sentinel_C9_interpreter_fallback (p : Platform) (env : Env)
    (fs1 fs2 fs3 : List String → Bool) (w1 w2 w3 : String → Bool)
    (pathv : List String) (spawnResult : Option Handle) (alive1 : Nat → Bool)
    (k : Except String Unit) (events : List ChildEvent) (alive2 : Nat → Bool)
    (uid : String) (st : SessionState)
    (h1 : (venvCandidates p).find? fs1 = some pathv)
    (h2 : (venvCandidates p).find? fs2 = none)
    (hw2 : w2 (systemPythonName p) = true)
    (h3 : (venvCandidates env.platform).find? fs3 = none)
    (hw3 : w3 (systemPythonName env.platform) = false)
    (huid : uid ≠ "") (hflag : st.requireAdminPrivileges = false) :
    resolvePython p fs1 w1 = some (PyExe.venvExe pathv) ∧
    resolvePython p fs2 w2 = some (PyExe.systemExe (systemPythonName p)) ∧
    resolvePython env.platform fs3 w3 = none ∧
    (startSentinelMonitor env true fs3 w3 spawnResult alive1 k events alive2
      (some uid) st).result =
        ⟨false, some (pythonNotFoundMsg env.platform), none, none, false⟩ ∧
    (∀ exe cp, Act.spawnAct exe cp ∉
      (startSentinelMonitor env true fs3 w3 spawnResult alive1 k events alive2
        (some uid) st).acts) := by
  have hres : resolvePython env.platform fs3 w3 = none := by
    simp [resolvePython, h3, hw3]
  obtain ⟨hr, hacts⟩ := start_python_not_found env fs3 w3 spawnResult alive1 k
    events alive2 uid st hres huid hflag
  refine ⟨by simp [resolvePython, h1], by simp [resolvePython, h2, hw2],
    hres, hr, ?_⟩
  intro exe cp hmem
  rw [hacts] at hmem
  obtain ⟨q, hq⟩ := startGuard_acts_only_kill env alive1 k
    { st with sentinelUserId := some uid } _ hmem
  exact absurd hq (by simp)

/-- Witness for C9 on concrete oracles: venv present on linux resolves to
`.venv/bin/python`; venv absent with `which` succeeding resolves to
`python3`; neither resolving makes the launch fail with no spawn. -/
theorem sentinel_C9_interpreter_fallback_witness :
    resolvePython Platform.linux (fun _ => true) (fun _ => true)
      = some (PyExe.venvExe [".venv", "bin", "python"]) ∧
    resolvePython Platform.linux (fun _ => false) (fun _ => true)
      = some (PyExe.systemExe (systemPythonName Platform.linux)) ∧
    resolvePython (Env.platform ⟨Platform.linux, false, false⟩)
      (fun _ => false) (fun _ => false) = none ∧
    (startSentinelMonitor ⟨Platform.linux, false, false⟩ true (fun _ => false)
      (fun _ => false) none (fun _ => true) (Except.ok ()) [] (fun _ => true)
      (some "u3") ⟨none, none, false, false⟩).result =
        ⟨false, some (pythonNotFoundMsg
          (Env.platform ⟨Platform.linux, false, false⟩)), none, none, false⟩ ∧
    (∀ exe cp, Act.spawnAct exe cp ∉
      (startSentinelMonitor ⟨Platform.linux, false, false⟩ true
        (fun _ => false) (fun _ => false) none (fun _ => true) (Except.ok ())
        [] (fun _ => true) (some "u3") ⟨none, none, false, false⟩).acts) :=
  sentinel_C9_interpreter_fallback Platform.linux
    ⟨Platform.linux, false, false⟩ (fun _ => true) (fun _ => false)
    (fun _ => false) (fun _ => true) (fun _ => true) (fun _ => false)
    [".venv", "bin", "python"] none (fun _ => true) (Except.ok ()) []
    (fun _ => true) "u3" ⟨none, none, false, false⟩ rfl rfl rfl rfl rfl
    (by decide) rfl

end SentinelSup

/-! ## C8: start with empty userId vs stop -/

namespace SentinelSup

def envLinux : Env := ⟨Platform.linux, false, false⟩

def emptyState : SessionState := ⟨none, none, false, false⟩

/-- The spec's claimed behaviour for a start with an empty/null `userId`:
"this is equivalent to `stop()`" — i.e. the observable outcome would be
exactly that of `stopSentinelMonitor` on the same state. -/
def specStartEmpty (env : Env) (killResult : Except String Unit)
    (st : SessionState) : StopOut :=
  stopSentinelMonitor env killResult st

/-- C8 counterexample: on the empty session state, `startSentinelMonitor`
with a null `userId` returns a failure result (`success = false`, message
`No User ID provided`) and publishes status `Stopped (No User ID)`, while
`stop()` (the spec-side behaviour) returns `success = true` and publishes
status `Stopped`; the observable outcomes differ, refuting the claimed
equivalence. -/
theorem sentinel_C8_counterexample :
    (startSentinelMonitor envLinux true (fun _ => true) (fun _ => true) none
      (fun _ => true) (Except.ok ()) [] (fun _ => true) none
      emptyState).result.success = false ∧
    (specStartEmpty envLinux (Except.ok ()) emptyState).result.success
      = true ∧
    lastStatusOf (startSentinelMonitor envLinux true (fun _ => true)
      (fun _ => true) none (fun _ => true) (Except.ok ()) [] (fun _ => true)
      none emptyState).msgs = some "Stopped (No User ID)" ∧
    lastStatusOf (specStartEmpty envLinux (Except.ok ()) emptyState).msgs
      = some "Stopped" ∧
    ¬((startSentinelMonitor envLinux true (fun _ => true) (fun _ => true)
        none (fun _ => true) (Except.ok ()) [] (fun _ => true) none
        emptyState).result.success =
      (specStartEmpty envLinux (Except.ok ()) emptyState).result.success ∧
      lastStatusOf (startSentinelMonitor envLinux true (fun _ => true)
        (fun _ => true) none (fun _ => true) (Except.ok ()) [] (fun _ => true)
        none emptyState).msgs =
      lastStatusOf (specStartEmpty envLinux (Except.ok ())
        emptyState).msgs) := by
  refine ⟨?_, ?_, ?_, ?_, ?_⟩ <;> decide

/-- C8 amended: a start with an empty or null `userId` does stop a running
child (it issues the kill for the tracked pid, exactly as `stop()` would),
but the observable outcome is not that of `stop()`: the call returns
`{success: false, message: 'No User ID provided'}` and publishes status
`Stopped (No User ID)`, whereas `stop()` on the same state returns a success
result.  (The `update-sentinel-user` IPC handler, by contrast, calls
`stopSentinelMonitor()` directly for empty ids.) -/
theorem sentinel_C8_amended (env : Env) (scriptExists : Bool)
    (fs : List String → Bool) (w : String → Bool)
    (spawnResult : Option Handle) (alive1 : Nat → Bool)
    (events : List ChildEvent) (alive2 : Nat → Bool) (u : Option String)
    (st : SessionState) (p : Nat) (hu : jsTruthyStr u = false)
    (h1 : st.sentinelProcess = some ⟨some p⟩) (hp : p ≠ 0)
    (h2 : alive1 p = true) :
    (startSentinelMonitor env scriptExists fs w spawnResult alive1
      (Except.ok ()) events alive2 u st).result =
        ⟨false, some noUserMsg, none, none, false⟩ ∧
    lastStatusOf (startSentinelMonitor env scriptExists fs w spawnResult
      alive1 (Except.ok ()) events alive2 u st).msgs =
        some "Stopped (No User ID)" ∧
    (startSentinelMonitor env scriptExists fs w spawnResult alive1
      (Except.ok ()) events alive2 u st).acts = [Act.killAct p] ∧
    (stopSentinelMonitor env (Except.ok ()) st).acts = [Act.killAct p] ∧
    (stopSentinelMonitor env (Except.ok ()) st).result.success = true := by
  have hrun : isProcessRunning alive1 (Handle.pid ⟨some p⟩) = true := by
    simp [isProcessRunning, hp, h2]
  have hstop : ∀ uu : Option String,
      stopSentinelMonitor env (Except.ok ())
        { st with sentinelUserId := uu } =
      ⟨⟨true, "Sentinel stop signal sent"⟩,
       { st with sentinelUserId := uu, sentinelProcess := none }, [],
       [Act.killAct p]⟩ := by
    intro uu
    simp [stopSentinelMonitor, h1, hp]
  cases u with
  | none =>
    refine ⟨?_, ?_, ?_, ?_, ?_⟩ <;>
      simp [startSentinelMonitor, startGuard, h1, hrun, hstop, noUserOut,
        lastStatusOf, mkUpdate, stopSentinelMonitor, hp]
  | some s =>
    have hs : s = "" := by
      simpa [jsTruthyStr] using hu
    subst hs
    refine ⟨?_, ?_, ?_, ?_, ?_⟩ <;>
      simp [startSentinelMonitor, startGuard, h1, hrun, hstop, noUserOut,
        lastStatusOf, mkUpdate, stopSentinelMonitor, hp]

/-- Witness for C8 amended: a live child with pid 9 and a null user id. -/
theorem sentinel_C8_amended_witness :
    (startSentinelMonitor envLinux true (fun _ => true) (fun _ => true) none
      (fun _ => true) (Except.ok ()) [] (fun _ => true) none
      ⟨some ⟨some 9⟩, some "uA", false, false⟩).result =
        ⟨false, some noUserMsg, none, none, false⟩ ∧
    lastStatusOf (startSentinelMonitor envLinux true (fun _ => true)
      (fun _ => true) none (fun _ => true) (Except.ok ()) [] (fun _ => true)
      none ⟨some ⟨some 9⟩, some "uA", false, false⟩).msgs =
        some "Stopped (No User ID)" ∧
    (startSentinelMonitor envLinux true (fun _ => true) (fun _ => true) none
      (fun _ => true) (Except.ok ()) [] (fun _ => true) none
      ⟨some ⟨some 9⟩, some "uA", false, false⟩).acts = [Act.killAct 9] ∧
    (stopSentinelMonitor envLinux (Except.ok ())
      ⟨some ⟨some 9⟩, some "uA", false, false⟩).acts = [Act.killAct 9] ∧
    (stopSentinelMonitor envLinux (Except.ok ())
      ⟨some ⟨some 9⟩, some "uA", false, false⟩).result.success = true :=
  sentinel_C8_amended envLinux true (fun _ => true) (fun _ => true) none
    (fun _ => true) [] (fun _ => true) none
    ⟨some ⟨some 9⟩, some "uA", false, false⟩ 9 rfl rfl (by decide) rfl

end SentinelSup

/-! ## C2: marker classification -/

namespace SentinelSup

theorem monitorStep_preserves (acc : ProcessInfo) (s : String) :
    (monitorStep acc s).adminRequired = acc.adminRequired ∧
    (monitorStep acc s).lastError = acc.lastError := by
  refine ⟨?_, ?_⟩ <;>
    · simp only [monitorStep]
      split
      · split <;> rfl
      · rfl

theorem foldl_monitorStep_preserves (l : List String) (info : ProcessInfo) :
    (l.foldl monitorStep info).adminRequired = info.adminRequired ∧
    (l.foldl monitorStep info).lastError = info.lastError := by
  induction l generalizing info with
  | nil => exact ⟨rfl, rfl⟩
  | cons s rest ih =>
    obtain ⟨h1, h2⟩ := monitorStep_preserves info s
    obtain ⟨h3, h4⟩ := ih (monitorStep info s)
    exact ⟨by rw [List.foldl_cons, h3, h1], by rw [List.foldl_cons, h4, h2]⟩

theorem parseMonitorLine_preserves (output : String) (info : ProcessInfo) :
    (parseMonitorLine output info).adminRequired = info.adminRequired ∧
    (parseMonitorLine output info).lastError = info.lastError := by
  unfold parseMonitorLine
  rcases h : (jsSplit '|' output).get? 1 with _ | seg
  · exact ⟨rfl, rfl⟩
  · by_cases hs : jsTrim seg = ""
    · simp [hs]
    · simp only [hs, if_neg hs]
      exact foldl_monitorStep_preserves _ info

/-- C2 counterexample: a stdout line containing `CRITICAL` is classified by
neither program: the supervisor's stdout handler forwards it verbatim with
no `Error` status update (the `FATAL`/`CRITICAL`/`Traceback` checks live
only in the stderr handler), and the backend service's stdout handler leaves
`processInfo` unchanged — the claim's "on either stream" fails for stdout. -/
theorem sentinel_C2_counterexample :
    fatalMarkers "CRITICAL failure in module X" = true ∧
    (onStdoutData envLinux 55 "u1" "CRITICAL failure in module X"
      ⟨some ⟨some 55⟩, some "u1", false, false⟩ ctx0).msgs =
      [Msg.output "CRITICAL failure in module X"] ∧
    (onStdoutData envLinux 55 "u1" "CRITICAL failure in module X"
      ⟨some ⟨some 55⟩, some "u1", false, false⟩ ctx0).state =
      ⟨some ⟨some 55⟩, some "u1", false, false⟩ ∧
    svcStdoutData "CRITICAL failure in module X"
      ⟨true, some 9, none, false, false, some "u", [], none, none⟩ =
      ⟨true, some 9, none, false, false, some "u", [], none, none⟩ := by
  refine ⟨?_, ?_, ?_, ?_⟩ <;> decide

/-- C2 amended: for a complete line from the tracked child, (a) a stdout
line containing `SENTINEL_READY` (and not the integrated-mode marker), with
integrated mode not yet detected, sets `isReady` and publishes status
`Running`; (b) a line containing `run as administrator` or
`requires administrator privileges` on either stream of the backend
service's child sets `adminRequired` (the service's requires-admin
representation) and `lastError`; (c) a line containing `FATAL`, `CRITICAL`
or `Traceback` arriving on stderr — and only stderr — of the supervisor's
child publishes status `Error` with the error field set to the line. -/
theorem sentinel_C2_marker_classification (env : Env) (cp cp3 : Nat)
    (uid : String) (d1 d2a d2b d3 : String) (st st3 : SessionState)
    (ctx ctx3 : StartCtx) (info2a info2b : ProcessInfo)
    (htr : trackedPid st = some cp)
    (hd : ctx.detectedIntegratedMode = false)
    (hready : includesStr (jsTrim d1) readyMarker = true)
    (hnoint : includesStr (jsTrim d1) integratedMarker = false)
    (hadm1 : svcAdminMarker (jsTrim d2a) = true)
    (hadm2 : svcAdminMarker (jsTrim d2b) = true)
    (htr3 : trackedPid st3 = some cp3)
    (hfatal : fatalMarkers (jsTrim d3) = true) :
    (onStdoutData env cp uid d1 st ctx).ctx.isReady = true ∧
    Msg.statusUpdate (mkUpdate true "Running" (some cp)
      (some st.sentinelUserId) none (some st.isRunningAsAdmin)
      (some (reqAdmin env st.requireAdminPrivileges)))
        ∈ (onStdoutData env cp uid d1 st ctx).msgs ∧
    (svcStdoutData d2a info2a).adminRequired = true ∧
    (svcStdoutData d2a info2a).lastError =
      some "Administrator privileges required" ∧
    (svcStderrData d2b info2b).adminRequired = true ∧
    (svcStderrData d2b info2b).lastError =
      some "Administrator privileges required" ∧
    Msg.statusUpdate (mkUpdate false "Error" (some cp3)
      (some st3.sentinelUserId) (some (jsTrim d3))
      (some st3.isRunningAsAdmin)
      (some (reqAdmin env st3.requireAdminPrivileges)))
        ∈ (onStderrData env cp3 d3 st3 ctx3).msgs := by
  have hsvcOut : (svcStdoutData d2a info2a).adminRequired = true ∧
      (svcStdoutData d2a info2a).lastError =
        some "Administrator privileges required" := by
    unfold svcStdoutData
    simp only [hadm1, if_true]
    split
    · refine ⟨?_, ?_⟩
      · rw [(parseMonitorLine_preserves _ _).1]
      · rw [(parseMonitorLine_preserves _ _).2]
    · exact ⟨rfl, rfl⟩
  refine ⟨?_, ?_, hsvcOut.1, hsvcOut.2, ?_, ?_, ?_⟩
  · simp [onStdoutData, htr, hready, hnoint, hd]
  · simp [onStdoutData, htr, hready, hnoint, hd]
  · simp [svcStderrData, hadm2]
  · simp [svcStderrData, hadm2]
  · simp [onStderrData, htr3, hfatal]

/-- Witness for C2 amended at concrete marker lines. -/
theorem sentinel_C2_marker_classification_witness :
    (onStdoutData envLinux 7 "u1" "SENTINEL_READY"
      ⟨some ⟨some 7⟩, some "u1", false, false⟩ ctx0).ctx.isReady = true ∧
    Msg.statusUpdate (mkUpdate true "Running" (some 7)
      (some (SessionState.sentinelUserId ⟨some ⟨some 7⟩, some "u1", false, false⟩))
      none (some (SessionState.isRunningAsAdmin ⟨some ⟨some 7⟩, some "u1", false, false⟩))
      (some (reqAdmin envLinux (SessionState.requireAdminPrivileges
        ⟨some ⟨some 7⟩, some "u1", false, false⟩))))
        ∈ (onStdoutData envLinux 7 "u1" "SENTINEL_READY"
            ⟨some ⟨some 7⟩, some "u1", false, false⟩ ctx0).msgs ∧
    (svcStdoutData "Sentinel requires administrator privileges to monitor USB"
      ⟨true, some 9, none, false, false, some "u", [], none, none⟩).adminRequired
        = true ∧
    (svcStdoutData "Sentinel requires administrator privileges to monitor USB"
      ⟨true, some 9, none, false, false, some "u", [], none, none⟩).lastError =
      some "Administrator privileges required" ∧
    (svcStderrData "Please run as administrator"
      ⟨true, some 9, none, false, false, some "u", [], none, none⟩).adminRequired
        = true ∧
    (svcStderrData "Please run as administrator"
      ⟨true, some 9, none, false, false, some "u", [], none, none⟩).lastError =
      some "Administrator privileges required" ∧
    Msg.statusUpdate (mkUpdate false "Error" (some 7)
      (some (SessionState.sentinelUserId ⟨some ⟨some 7⟩, some "u1", false, false⟩))
      (some (jsTrim "FATAL: watcher thread died"))
      (some (SessionState.isRunningAsAdmin ⟨some ⟨some 7⟩, some "u1", false, false⟩))
      (some (reqAdmin envLinux (SessionState.requireAdminPrivileges
        ⟨some ⟨some 7⟩, some "u1", false, false⟩))))
        ∈ (onStderrData envLinux 7 "FATAL: watcher thread died"
            ⟨some ⟨some 7⟩, some "u1", false, false⟩ ctx0).msgs :=
  sentinel_C2_marker_classification envLinux 7 7 "u1" "SENTINEL_READY"
    "Sentinel requires administrator privileges to monitor USB"
    "Please run as administrator" "FATAL: watcher thread died"
    ⟨some ⟨some 7⟩, some "u1", false, false⟩
    ⟨some ⟨some 7⟩, some "u1", false, false⟩ ctx0 ctx0
    ⟨true, some 9, none, false, false, some "u", [], none, none⟩
    ⟨true, some 9, none, false, false, some "u", [], none, none⟩
    rfl rfl (by decide) (by decide) (by decide) (by decide) rfl (by decide)

end SentinelSup

/-! ## C3: stale-event rejection -/

namespace SentinelSup

/-- C3 counterexample: a `close` event from a previous child (pid 100)
delivered while pid 200 is the tracked child does not clear the handle
(that clearing is pid-guarded), but it still unconditionally publishes a
`sentinel-stopped` notification and a `running := false`, status `Stopped`
update — a stale exit event mutates the session's published status, which
the claim forbids for every stream or exit event of a previous child. -/
theorem sentinel_C3_counterexample :
    (onClose envLinux 100 (some 0) none
      ⟨some ⟨some 200⟩, some "userA", false, false⟩ ctx0).state =
      ⟨some ⟨some 200⟩, some "userA", false, false⟩ ∧
    (onClose envLinux 100 (some 0) none
      ⟨some ⟨some 200⟩, some "userA", false, false⟩ ctx0).msgs =
      [Msg.stoppedEvent (some 0) none,
       Msg.statusUpdate (mkUpdate false "Stopped" (some 100)
         (some (some "userA")) none (some false) (some false))] ∧
    lastStatusOf (onClose envLinux 100 (some 0) none
      ⟨some ⟨some 200⟩, some "userA", false, false⟩ ctx0).msgs =
      some "Stopped" := by
  refine ⟨?_, ?_, ?_⟩ <;> decide

/-- C3 amended: a stale stdout or stderr event (from a pid other than the
tracked one) is fully discarded — no state change, no closure-variable
change, no message; a stale `close` event leaves the tracked handle in
place, but still publishes the exit notification and a status update. -/
theorem sentinel_C3_stale_event_rejection (env : Env) (cpOld : Nat)
    (uid d1 d2 : String) (code : Option Int) (sig : Option String)
    (st : SessionState) (ctx : StartCtx)
    (hstale : trackedPid st ≠ some cpOld) :
    onStdoutData env cpOld uid d1 st ctx = ⟨st, ctx, []⟩ ∧
    onStderrData env cpOld d2 st ctx = ⟨st, ctx, []⟩ ∧
    (onClose env cpOld code sig st ctx).state = st ∧
    (onClose env cpOld code sig st ctx).msgs =
      [Msg.stoppedEvent code sig,
       Msg.statusUpdate (mkUpdate false
         (closeStatus ctx.detectedIntegratedMode code sig) (some cpOld)
         (some st.sentinelUserId) none (some st.isRunningAsAdmin)
         (some (reqAdmin env st.requireAdminPrivileges)))] := by
  refine ⟨?_, ?_, ?_, ?_⟩ <;> simp [onStdoutData, onStderrData, onClose, hstale]

/-- Witness for C3 amended: tracked pid 200, stale events from pid 100. -/
theorem sentinel_C3_stale_event_rejection_witness :
    onStdoutData envLinux 100 "uA" "SENTINEL_READY"
      ⟨some ⟨some 200⟩, some "uA", false, false⟩ ctx0 =
      ⟨⟨some ⟨some 200⟩, some "uA", false, false⟩, ctx0, []⟩ ∧
    onStderrData envLinux 100 "FATAL: late" ⟨some ⟨some 200⟩, some "uA", false,
      false⟩ ctx0 = ⟨⟨some ⟨some 200⟩, some "uA", false, false⟩, ctx0, []⟩ ∧
    (onClose envLinux 100 (some 1) none
      ⟨some ⟨some 200⟩, some "uA", false, false⟩ ctx0).state =
      ⟨some ⟨some 200⟩, some "uA", false, false⟩ ∧
    (onClose envLinux 100 (some 1) none
      ⟨some ⟨some 200⟩, some "uA", false, false⟩ ctx0).msgs =
      [Msg.stoppedEvent (some 1) none,
       Msg.statusUpdate (mkUpdate false
         (closeStatus ctx0.detectedIntegratedMode (some 1) none) (some 100)
         (some (SessionState.sentinelUserId
           ⟨some ⟨some 200⟩, some "uA", false, false⟩))
         none
         (some (SessionState.isRunningAsAdmin
           ⟨some ⟨some 200⟩, some "uA", false, false⟩))
         (some (reqAdmin envLinux (SessionState.requireAdminPrivileges
           ⟨some ⟨some 200⟩, some "uA", false, false⟩))))] :=
  sentinel_C3_stale_event_rejection envLinux 100 "uA" "SENTINEL_READY"
    "FATAL: late" (some 1) none ⟨some ⟨some 200⟩, some "uA", false, false⟩
    ctx0 (by decide)

/-! ## Preservation lemmas for the event-processing loop -/

theorem onStdoutData_state (env : Env) (cp : Nat) (uid d : String)
    (st : SessionState) (ctx : StartCtx) :
    (onStdoutData env cp uid d st ctx).state = st := by
  unfold onStdoutData
  split <;> rfl

theorem onStderrData_state (env : Env) (cp : Nat) (d : String)
    (st : SessionState) (ctx : StartCtx) :
    (onStderrData env cp d st ctx).state = st := by
  unfold onStderrData
  split <;> rfl

theorem handleEvent_preserves (env : Env) (cp : Nat) (uid : String)
    (e : ChildEvent) (st : SessionState) (ctx : StartCtx) :
    (handleEvent env cp uid e st ctx).state.sentinelUserId =
      st.sentinelUserId ∧
    (handleEvent env cp uid e st ctx).state.isRunningAsAdmin =
      st.isRunningAsAdmin ∧
    (handleEvent env cp uid e st ctx).state.requireAdminPrivileges =
      st.requireAdminPrivileges := by
  cases e with
  | stdoutData s => rw [handleEvent, onStdoutData_state]; exact ⟨rfl, rfl, rfl⟩
  | stderrData s => rw [handleEvent, onStderrData_state]; exact ⟨rfl, rfl, rfl⟩
  | closed c sg =>
    refine ⟨?_, ?_, ?_⟩ <;>
      · simp only [handleEvent, onClose]
        split <;> rfl
  | spawnError m =>
    refine ⟨?_, ?_, ?_⟩ <;>
      · simp only [handleEvent, onErrorEvent]
        split <;> rfl

theorem processEvents_preserves (env : Env) (cp : Nat) (uid : String)
    (events : List ChildEvent) (st : SessionState) (ctx : StartCtx) :
    (processEvents env cp uid events st ctx).state.sentinelUserId =
      st.sentinelUserId ∧
    (processEvents env cp uid events st ctx).state.isRunningAsAdmin =
      st.isRunningAsAdmin ∧
    (processEvents env cp uid events st ctx).state.requireAdminPrivileges =
      st.requireAdminPrivileges := by
  induction events generalizing st ctx with
  | nil => exact ⟨rfl, rfl, rfl⟩
  | cons e es ih =>
    obtain ⟨h1, h2, h3⟩ := handleEvent_preserves env cp uid e st ctx
    obtain ⟨h4, h5, h6⟩ := ih (handleEvent env cp uid e st ctx).state
      (handleEvent env cp uid e st ctx).ctx
    exact ⟨by rw [processEvents, h4, h1], by rw [processEvents, h5, h2],
      by rw [processEvents, h6, h3]⟩

end SentinelSup

/-! ## C4: singleton session -/

namespace SentinelSup

/-- Command sequence issued by `start(userB)` while the old child 100 is
still alive: stop-then-spawn, as the source performs it. -/
def startActsC4 : List Act :=
  (startSentinelMonitor envLinux true (fun _ => true) (fun _ => false)
    (some ⟨some 200⟩) (fun _ => true) (Except.ok ()) [] (fun _ => true)
    (some "userB") ⟨some ⟨some 100⟩, some "userA", false, false⟩).acts

/-- A valid interleaving in which the old child's kill signal is delivered
only after the new child has been spawned. -/
def schedC4 : List SchedStep :=
  [SchedStep.issue (Act.killAct 100),
   SchedStep.issue (Act.spawnAct (PyExe.venvExe [".venv", "bin", "python"]) 200),
   SchedStep.deliverKill 100]

/-- C4 counterexample: `startSentinelMonitor` for userB over a live child
with pid 100 issues `[kill 100, spawn 200]`, but the kill is only a signal —
`stopSentinelMonitor` returns without awaiting the exit confirmation — so
the interleaving `schedC4`, which is valid for that command sequence,
reaches the instant where both pid 100 and pid 200 are alive: the claimed
"fully stopped and confirmed before the new spawn / at most one live child
at any instant" property fails. -/
theorem sentinel_C4_counterexample :
    startActsC4 = [Act.killAct 100,
      Act.spawnAct (PyExe.venvExe [".venv", "bin", "python"]) 200] ∧
    validSchedule startActsC4 schedC4 = true ∧
    [100, 200] ∈ liveTrace [100] schedC4 ∧
    ¬ atMostOneLiveChild [100] startActsC4 := by
  refine ⟨by decide, by decide, by decide, ?_⟩
  intro h
  have h2 := h schedC4 (by decide) [100, 200] (by decide)
  exact absurd h2 (by decide)

/-- C4 amended: `start(userB)` over a live previous child first issues the
kill for the old pid and only then the spawn of the new child (the command
sequence is exactly `[kill old, spawn new]`, in that order), and afterwards
the tracked `userId` is userB; however the old child's exit is signalled,
not awaited, so mutual exclusion of the two OS processes is not guaranteed
at every instant (see the counterexample). -/
theorem sentinel_C4_singleton_session (env : Env) (fs : List String → Bool)
    (w : String → Bool) (alive1 alive2 : Nat → Bool)
    (events : List ChildEvent) (py : PyExe) (oldPid newPid : Nat)
    (uidB : String) (st : SessionState)
    (h1 : st.sentinelProcess = some ⟨some oldPid⟩) (hop : oldPid ≠ 0)
    (halive : alive1 oldPid = true) (hnp : newPid ≠ 0)
    (hres : resolvePython env.platform fs w = some py)
    (huid : uidB ≠ "") (hflag : st.requireAdminPrivileges = false) :
    (startSentinelMonitor env true fs w (some ⟨some newPid⟩) alive1
      (Except.ok ()) events alive2 (some uidB) st).acts =
      [Act.killAct oldPid, Act.spawnAct py newPid] ∧
    (startSentinelMonitor env true fs w (some ⟨some newPid⟩) alive1
      (Except.ok ()) events alive2 (some uidB) st).state.sentinelUserId =
      some uidB := by
  have hguard : startGuard env alive1 (Except.ok ())
      { st with sentinelUserId := some uidB } =
      ({ st with sentinelUserId := some uidB, sentinelProcess := none },
       [], [Act.killAct oldPid]) := by
    simp [startGuard, h1, isProcessRunning, hop, halive, stopSentinelMonitor]
  have huserId : ∀ stT : SessionState, ∀ ctx : StartCtx,
      (processEvents env newPid uidB events stT ctx).state.sentinelUserId =
        stT.sentinelUserId :=
    fun stT ctx => (processEvents_preserves env newPid uidB events stT ctx).1
  refine ⟨?_, ?_⟩
  · simp only [startSentinelMonitor, hguard]
    simp only [reqAdmin, hflag, Bool.and_false, Bool.false_and]
    simp [huid, hres, hnp]
    split
    · split <;> rfl
    · split
      · rfl
      · split <;> rfl
  · simp only [startSentinelMonitor, hguard]
    simp only [reqAdmin, hflag, Bool.and_false, Bool.false_and]
    simp [huid, hres, hnp]
    split
    · split <;> simp [huserId]
    · split
      · split <;> simp [huserId]
      · split <;> simp [huserId]

/-- Witness for C4 amended: old child pid 100, new child pid 200. -/
theorem sentinel_C4_singleton_session_witness :
    (startSentinelMonitor envLinux true (fun _ => true) (fun _ => false)
      (some ⟨some 200⟩) (fun _ => true) (Except.ok ()) [] (fun _ => true)
      (some "userB") ⟨some ⟨some 100⟩, some "userA", false, false⟩).acts =
      [Act.killAct 100,
       Act.spawnAct (PyExe.venvExe [".venv", "bin", "python"]) 200] ∧
    (startSentinelMonitor envLinux true (fun _ => true) (fun _ => false)
      (some ⟨some 200⟩) (fun _ => true) (Except.ok ()) [] (fun _ => true)
      (some "userB")
      ⟨some ⟨some 100⟩, some "userA", false, false⟩).state.sentinelUserId =
      some "userB" :=
  sentinel_C4_singleton_session envLinux (fun _ => true) (fun _ => false)
    (fun _ => true) (fun _ => true) [] (PyExe.venvExe [".venv", "bin", "python"])
    100 200 "userB" ⟨some ⟨some 100⟩, some "userA", false, false⟩ rfl
    (by decide) rfl (by decide) rfl (by decide) rfl

end SentinelSup

/-! ## C5: grace-window crash -/

namespace SentinelSup

theorem closeStatus_ne_running (d : Bool) (c : Option Int)
    (s : Option String) : closeStatus d c s ≠ "Running" := by
  cases d with
  | false =>
    rw [closeStatus_false]
    by_cases hc : c = some 0
    · rw [if_pos hc]
      decide
    · rw [if_neg hc]
      exact exitedStatus_ne c s "Running" (by decide)
  | true =>
    rw [closeStatus_true]
    decide

theorem stop_msgs_stopped (env : Env) (k : Except String Unit)
    (st : SessionState) (u : StatusUpdate)
    (hu : Msg.statusUpdate u ∈ (stopSentinelMonitor env k st).msgs) :
    u.status = "Stopped" := by
  rcases hsp : st.sentinelProcess with _ | h
  · simp [stopSentinelMonitor, hsp, mkUpdate] at hu
    rw [hu]
  · rcases hpid : h.pid with _ | p
    · simp [stopSentinelMonitor, hsp, hpid] at hu
    · by_cases hz : p = 0
      · simp [stopSentinelMonitor, hsp, hpid, hz] at hu
      · cases k with
        | error e => simp [stopSentinelMonitor, hsp, hpid, hz] at hu
        | ok v => simp [stopSentinelMonitor, hsp, hpid, hz] at hu

theorem startGuard_msgs_stopped (env : Env) (a : Nat → Bool)
    (k : Except String Unit) (st : SessionState) (u : StatusUpdate)
    (hu : Msg.statusUpdate u ∈ (startGuard env a k st).2.1) :
    u.status = "Stopped" := by
  rcases hsp : st.sentinelProcess with _ | h
  · simp [startGuard, hsp] at hu
  · cases hrun : isProcessRunning a h.pid with
    | false => simp [startGuard, hsp, hrun] at hu
    | true =>
      simp [startGuard, hsp, hrun] at hu
      exact stop_msgs_stopped env k st u hu

theorem onClose_earlyExit (env : Env) (cp : Nat) (c : Option Int)
    (sg : Option String) (st : SessionState) (ctx : StartCtx) :
    (onClose env cp c sg st ctx).ctx.earlyExit = true := rfl

theorem onErrorEvent_earlyExit (env : Env) (cp : Nat) (m : String)
    (st : SessionState) (ctx : StartCtx) :
    (onErrorEvent env cp m st ctx).ctx.earlyExit = true := rfl

theorem onStdoutData_earlyExit (env : Env) (cp : Nat) (uid d : String)
    (st : SessionState) (ctx : StartCtx) :
    (onStdoutData env cp uid d st ctx).ctx.earlyExit = ctx.earlyExit := by
  simp only [onStdoutData]
  repeat' split
  all_goals rfl

theorem onStderrData_ctx (env : Env) (cp : Nat) (d : String)
    (st : SessionState) (ctx : StartCtx) :
    (onStderrData env cp d st ctx).ctx = ctx := by
  simp only [onStderrData]
  split <;> rfl

theorem handleEvent_earlyExit_mono (env : Env) (cp : Nat) (uid : String)
    (e : ChildEvent) (st : SessionState) (ctx : StartCtx)
    (h : ctx.earlyExit = true) :
    (handleEvent env cp uid e st ctx).ctx.earlyExit = true := by
  cases e with
  | stdoutData s => rw [handleEvent, onStdoutData_earlyExit]; exact h
  | stderrData s => rw [handleEvent, onStderrData_ctx]; exact h
  | closed c sg => exact onClose_earlyExit env cp c sg st ctx
  | spawnError m => exact onErrorEvent_earlyExit env cp m st ctx

theorem processEvents_earlyExit_mono (env : Env) (cp : Nat) (uid : String)
    (events : List ChildEvent) :
    ∀ st ctx, ctx.earlyExit = true →
      (processEvents env cp uid events st ctx).ctx.earlyExit = true := by
  induction events with
  | nil => intro st ctx h; exact h
  | cons e es ih =>
    intro st ctx h
    rw [processEvents]
    exact ih _ _ (handleEvent_earlyExit_mono env cp uid e st ctx h)

theorem processEvents_closed_earlyExit (env : Env) (cp : Nat) (uid : String)
    (events : List ChildEvent) (c : Option Int) (sg : Option String) :
    ∀ st ctx, ChildEvent.closed c sg ∈ events →
      (processEvents env cp uid events st ctx).ctx.earlyExit = true := by
  induction events with
  | nil => intro st ctx hmem; cases hmem
  | cons e es ih =>
    intro st ctx hmem
    rw [processEvents]
    rcases List.mem_cons.mp hmem with he | he
    · subst he
      exact processEvents_earlyExit_mono env cp uid es _ _
        (onClose_earlyExit env cp c sg st ctx)
    · exact ih _ _ he

theorem handleEvent_state_cases (env : Env) (cp : Nat) (uid : String)
    (e : ChildEvent) (st : SessionState) (ctx : StartCtx) :
    (handleEvent env cp uid e st ctx).state = st ∨
    (handleEvent env cp uid e st ctx).state =
      { st with sentinelProcess := none } := by
  cases e with
  | stdoutData s => left; rw [handleEvent, onStdoutData_state]
  | stderrData s => left; rw [handleEvent, onStderrData_state]
  | closed c sg =>
    simp only [handleEvent, onClose]
    split
    · right; rfl
    · left; rfl
  | spawnError m =>
    simp only [handleEvent, onErrorEvent]
    split
    · right; rfl
    · left; rfl

theorem onClose_clears (env : Env) (cp : Nat) (c : Option Int)
    (sg : Option String) (st : SessionState) (ctx : StartCtx)
    (h : trackedPid st = some cp) :
    (onClose env cp c sg st ctx).state.sentinelProcess = none := by
  simp [onClose, h]

theorem processEvents_none (env : Env) (cp : Nat) (uid : String)
    (events : List ChildEvent) :
    ∀ st ctx, st.sentinelProcess = none →
      (processEvents env cp uid events st ctx).state.sentinelProcess
        = none := by
  induction events with
  | nil => intro st ctx h; exact h
  | cons e es ih =>
    intro st ctx h
    rw [processEvents]
    rcases handleEvent_state_cases env cp uid e st ctx with hc | hc
    · exact ih _ _ (by rw [hc]; exact h)
    · exact ih _ _ (by rw [hc])

theorem handleEvent_P (env : Env) (cp : Nat) (uid : String) (e : ChildEvent)
    (st : SessionState) (ctx : StartCtx)
    (hP : st.sentinelProcess = none ∨ trackedPid st = some cp) :
    (handleEvent env cp uid e st ctx).state.sentinelProcess = none ∨
    trackedPid (handleEvent env cp uid e st ctx).state = some cp := by
  rcases handleEvent_state_cases env cp uid e st ctx with hc | hc
  · rw [hc]
    rcases hP with h0 | h0
    · exact Or.inl h0
    · exact Or.inr h0
  · left
    rw [hc]

theorem processEvents_closed_clears (env : Env) (cp : Nat) (uid : String)
    (events : List ChildEvent) (c : Option Int) (sg : Option String) :
    ∀ st ctx, (st.sentinelProcess = none ∨ trackedPid st = some cp) →
      ChildEvent.closed c sg ∈ events →
      (processEvents env cp uid events st ctx).state.sentinelProcess
        = none := by
  induction events with
  | nil => intro st ctx hP hmem; cases hmem
  | cons e es ih =>
    intro st ctx hP hmem
    rw [processEvents]
    rcases List.mem_cons.mp hmem with he | he
    · subst he
      have hcl : (handleEvent env cp uid (ChildEvent.closed c sg) st
          ctx).state.sentinelProcess = none := by
        rcases hP with h0 | h0
        · rcases handleEvent_state_cases env cp uid (ChildEvent.closed c sg)
            st ctx with hc | hc
          · rw [hc]; exact h0
          · rw [hc]
        · exact onClose_clears env cp c sg st ctx h0
      exact processEvents_none env cp uid es _ _ hcl
    · exact ih _ _ (handleEvent_P env cp uid e st ctx hP) he

theorem handleEvent_no_running (env : Env) (cp : Nat) (uid : String)
    (e : ChildEvent) (st : SessionState) (ctx : StartCtx)
    (h : ∀ d, e = ChildEvent.stdoutData d →
      includesStr (jsTrim d) readyMarker = false) (u : StatusUpdate)
    (hu : Msg.statusUpdate u ∈ (handleEvent env cp uid e st ctx).msgs) :
    u.status ≠ "Running" := by
  cases e with
  | stdoutData s =>
    have hready := h s rfl
    simp only [handleEvent, onStdoutData] at hu
    split at hu
    · simp at hu
    · simp only [hready, Bool.false_eq_true, if_false] at hu
      split at hu
      · simp [mkUpdate] at hu
        subst hu
        simp
      · simp at hu
  | stderrData s =>
    simp only [handleEvent, onStderrData] at hu
    split at hu
    · simp at hu
    · split at hu
      · simp [mkUpdate] at hu
        subst hu
        simp
      · simp at hu
  | closed c sg =>
    simp only [handleEvent, onClose, mkUpdate] at hu
    simp at hu
    subst hu
    simpa using closeStatus_ne_running ctx.detectedIntegratedMode c sg
  | spawnError m =>
    simp only [handleEvent, onErrorEvent, mkUpdate] at hu
    simp at hu
    subst hu
    simp

theorem processEvents_no_running (env : Env) (cp : Nat) (uid : String)
    (events : List ChildEvent) :
    ∀ st ctx, (∀ d, ChildEvent.stdoutData d ∈ events →
        includesStr (jsTrim d) readyMarker = false) →
      ∀ u, Msg.statusUpdate u ∈ (processEvents env cp uid events st ctx).msgs →
        u.status ≠ "Running" := by
  induction events with
  | nil => intro st ctx _ u hu; cases hu
  | cons e es ih =>
    intro st ctx hnoready u hu
    rw [processEvents] at hu
    rcases List.mem_append.mp hu with hu1 | hu2
    · exact handleEvent_no_running env cp uid e st ctx
        (fun d hd => hnoready d (hd ▸ List.mem_cons_self e es)) u hu1
    · exact ih _ _ (fun d hd => hnoready d (List.mem_cons_of_mem e hd)) u hu2

end SentinelSup

namespace SentinelSup

/-- C5 counterexample: a child that prints `SENTINEL_READY` and then exits
with code 1 inside the grace window makes `start` return a failure result,
but a `Running` status update was published before the exit arrived — the
claim's "rather than ever reporting the child as running" fails on this
input. -/
theorem sentinel_C5_counterexample :
    (startSentinelMonitor envLinux true (fun _ => true) (fun _ => false)
      (some ⟨some 77⟩) (fun _ => true) (Except.ok ())
      [ChildEvent.stdoutData "SENTINEL_READY",
       ChildEvent.closed (some 1) none]
      (fun _ => true) (some "u2") emptyState).result.success = false ∧
    Msg.statusUpdate (mkUpdate true "Running" (some 77) (some (some "u2"))
      none (some false) (some false)) ∈
      (startSentinelMonitor envLinux true (fun _ => true) (fun _ => false)
        (some ⟨some 77⟩) (fun _ => true) (Except.ok ())
        [ChildEvent.stdoutData "SENTINEL_READY",
         ChildEvent.closed (some 1) none]
        (fun _ => true) (some "u2") emptyState).msgs := by
  refine ⟨?_, ?_⟩ <;> decide

/-- C5 amended: whenever the child delivers an exit event within the grace
window, `start` returns a failure result with a human-readable message
(never success); and provided no stdout chunk of the window contains
`SENTINEL_READY`, no `Running` status is ever published.  (If the child
prints the ready marker before crashing, a transient `Running` update is
published — see the counterexample.) -/
theorem sentinel_C5_grace_window_crash (env : Env) (fs : List String → Bool)
    (w : String → Bool) (alive1 alive2 : Nat → Bool)
    (events : List ChildEvent) (py : PyExe) (cp : Nat) (c : Option Int)
    (sg : Option String) (uid : String) (st : SessionState)
    (hclosed : ChildEvent.closed c sg ∈ events)
    (hnoready : ∀ d, ChildEvent.stdoutData d ∈ events →
      includesStr (jsTrim d) readyMarker = false)
    (hres : resolvePython env.platform fs w = some py) (hcp : cp ≠ 0)
    (huid : uid ≠ "") (hflag : st.requireAdminPrivileges = false) :
    (startSentinelMonitor env true fs w (some ⟨some cp⟩) alive1
      (Except.ok ()) events alive2 (some uid) st).result.success = false ∧
    ((startSentinelMonitor env true fs w (some ⟨some cp⟩) alive1
        (Except.ok ()) events alive2 (some uid) st).result.message =
          some earlyCrashMsg ∨
     (startSentinelMonitor env true fs w (some ⟨some cp⟩) alive1
        (Except.ok ()) events alive2 (some uid) st).result.message =
          some integratedCrashMsg) ∧
    earlyCrashMsg ≠ "" ∧ integratedCrashMsg ≠ "" ∧
    (∀ u, Msg.statusUpdate u ∈ (startSentinelMonitor env true fs w
        (some ⟨some cp⟩) alive1 (Except.ok ()) events alive2 (some uid)
        st).msgs → u.status ≠ "Running") := by
  rcases hg : startGuard env alive1 (Except.ok ())
    { st with sentinelUserId := some uid } with ⟨stG, msgsG, actsG⟩
  have hflagG : stG.requireAdminPrivileges = false := by
    have h := (startGuard_fields env alive1 (Except.ok ())
      { st with sentinelUserId := some uid }).1
    rw [hg] at h
    simpa [hflag] using h
  have hNone : ∀ (stX : SessionState) (ctxX : StartCtx),
      trackedPid stX = some cp →
      (processEvents env cp uid events stX ctxX).state.sentinelProcess
        = none :=
    fun stX ctxX hX =>
      processEvents_closed_clears env cp uid events c sg stX ctxX
        (Or.inr hX) hclosed
  have hEarly : ∀ (stX : SessionState) (ctxX : StartCtx),
      (processEvents env cp uid events stX ctxX).ctx.earlyExit = true :=
    fun stX ctxX =>
      processEvents_closed_earlyExit env cp uid events c sg stX ctxX hclosed
  have hNoRun : ∀ (stX : SessionState) (ctxX : StartCtx),
      ∀ u, Msg.statusUpdate u ∈
        (processEvents env cp uid events stX ctxX).msgs →
        u.status ≠ "Running" :=
    fun stX ctxX => processEvents_no_running env cp uid events stX ctxX
      hnoready
  refine ⟨?_, ?_, by decide, by decide, ?_⟩
  · simp only [startSentinelMonitor, hg]
    simp only [reqAdmin, hflagG, Bool.and_false, Bool.false_and]
    simp [huid, hres, hcp, trackedPid, hNone, hEarly]
    split <;> rfl
  · simp only [startSentinelMonitor, hg]
    simp only [reqAdmin, hflagG, Bool.and_false, Bool.false_and]
    simp [huid, hres, hcp, trackedPid, hNone, hEarly]
    split <;> simp
  · intro u hu
    simp only [startSentinelMonitor, hg] at hu
    simp only [reqAdmin, hflagG, Bool.and_false, Bool.false_and] at hu
    simp [huid, hres, hcp, trackedPid, hNone, hEarly,
      apply_ite StartOut.msgs] at hu
    rcases hfind : (venvCandidates env.platform).find? fs with _ | pv <;>
      simp only [hfind] at hu <;>
      · simp [mkUpdate] at hu
        rcases hu with hu | hu | hu | hu
        · have hs := startGuard_msgs_stopped env alive1 (Except.ok ())
            { st with sentinelUserId := some uid } u (by rw [hg]; exact hu)
          rw [hs]
          decide
        · subst hu; simp
        · subst hu; simp
        · exact hNoRun _ _ u hu

end SentinelSup

namespace SentinelSup

/-- Witness for C5 amended: child pid 77 exits with code 1 and prints
nothing during the grace window. -/
theorem sentinel_C5_grace_window_crash_witness :
    (startSentinelMonitor envLinux true (fun _ => true) (fun _ => false)
      (some ⟨some 77⟩) (fun _ => true) (Except.ok ())
      [ChildEvent.closed (some 1) none] (fun _ => true) (some "u2")
      emptyState).result.success = false ∧
    ((startSentinelMonitor envLinux true (fun _ => true) (fun _ => false)
        (some ⟨some 77⟩) (fun _ => true) (Except.ok ())
        [ChildEvent.closed (some 1) none] (fun _ => true) (some "u2")
        emptyState).result.message = some earlyCrashMsg ∨
     (startSentinelMonitor envLinux true (fun _ => true) (fun _ => false)
        (some ⟨some 77⟩) (fun _ => true) (Except.ok ())
        [ChildEvent.closed (some 1) none] (fun _ => true) (some "u2")
        emptyState).result.message = some integratedCrashMsg) ∧
    earlyCrashMsg ≠ "" ∧ integratedCrashMsg ≠ "" ∧
    (∀ u, Msg.statusUpdate u ∈ (startSentinelMonitor envLinux true
        (fun _ => true) (fun _ => false) (some ⟨some 77⟩) (fun _ => true)
        (Except.ok ()) [ChildEvent.closed (some 1) none] (fun _ => true)
        (some "u2") emptyState).msgs → u.status ≠ "Running") :=
  sentinel_C5_grace_window_crash envLinux (fun _ => true) (fun _ => false)
    (fun _ => true) (fun _ => true) [ChildEvent.closed (some 1) none]
    (PyExe.venvExe [".venv", "bin", "python"]) 77 (some 1) none "u2"
    emptyState (by decide) (by intro d hd; simp at hd) rfl (by decide)
    (by decide) rfl

end SentinelSup

/-! ## C10: requiresAdmin is always false -/

namespace SentinelSup

theorem stop_updates_reqAdmin (env : Env) (k : Except String Unit)
    (st : SessionState) (hflag : st.requireAdminPrivileges = false)
    (u : StatusUpdate)
    (hu : Msg.statusUpdate u ∈ (stopSentinelMonitor env k st).msgs) :
    u.requiresAdmin ≠ some true := by
  rcases hsp : st.sentinelProcess with _ | h
  · simp [stopSentinelMonitor, hsp, mkUpdate] at hu
    subst hu
    simp [reqAdmin, hflag]
  · rcases hpid : h.pid with _ | p
    · simp [stopSentinelMonitor, hsp, hpid] at hu
    · by_cases hz : p = 0
      · simp [stopSentinelMonitor, hsp, hpid, hz] at hu
      · cases k with
        | error e => simp [stopSentinelMonitor, hsp, hpid, hz] at hu
        | ok v => simp [stopSentinelMonitor, hsp, hpid, hz] at hu

theorem startGuard_updates_reqAdmin (env : Env) (a : Nat → Bool)
    (k : Except String Unit) (st : SessionState)
    (hflag : st.requireAdminPrivileges = false) (u : StatusUpdate)
    (hu : Msg.statusUpdate u ∈ (startGuard env a k st).2.1) :
    u.requiresAdmin ≠ some true := by
  rcases hsp : st.sentinelProcess with _ | h
  · simp [startGuard, hsp] at hu
  · cases hrun : isProcessRunning a h.pid with
    | false => simp [startGuard, hsp, hrun] at hu
    | true =>
      simp [startGuard, hsp, hrun] at hu
      exact stop_updates_reqAdmin env k st hflag u hu

theorem handleEvent_updates_reqAdmin (env : Env) (cp : Nat) (uid : String)
    (e : ChildEvent) (st : SessionState) (ctx : StartCtx)
    (hflag : st.requireAdminPrivileges = false) (u : StatusUpdate)
    (hu : Msg.statusUpdate u ∈ (handleEvent env cp uid e st ctx).msgs) :
    u.requiresAdmin ≠ some true := by
  cases e <;>
    · simp only [handleEvent, onStdoutData, onStderrData, onClose,
        onErrorEvent] at hu
      repeat' split at hu
      all_goals simp_all [mkUpdate, reqAdmin, hflag]

theorem processEvents_updates_reqAdmin (env : Env) (cp : Nat) (uid : String)
    (events : List ChildEvent) :
    ∀ st ctx, st.requireAdminPrivileges = false →
      ∀ u, Msg.statusUpdate u ∈ (processEvents env cp uid events st ctx).msgs →
        u.requiresAdmin ≠ some true := by
  induction events with
  | nil => intro st ctx _ u hu; cases hu
  | cons e es ih =>
    intro st ctx hflag u hu
    rw [processEvents] at hu
    rcases List.mem_append.mp hu with hu1 | hu2
    · exact handleEvent_updates_reqAdmin env cp uid e st ctx hflag u hu1
    · exact ih _ _ (by
        rw [(handleEvent_preserves env cp uid e st ctx).2.2]; exact hflag)
        u hu2

theorem check_reqAdmin_false (env : Env) (alive : Nat → Bool)
    (st : SessionState) (hflag : st.requireAdminPrivileges = false) :
    (checkSentinelStatus env alive st).1.requiresAdmin = false := by
  rcases hsp : st.sentinelProcess with _ | h
  · simp [checkSentinelStatus, hsp, reqAdmin, hflag]
  · rcases hpid : h.pid with _ | p
    · simp [checkSentinelStatus, hsp, hpid, reqAdmin, hflag]
    · by_cases hz : p = 0
      · simp [checkSentinelStatus, hsp, hpid, hz, reqAdmin, hflag]
      · cases halive : alive p with
        | false => simp [checkSentinelStatus, hsp, hpid, hz, halive, reqAdmin, hflag]
        | true => simp [checkSentinelStatus, hsp, hpid, hz, halive, reqAdmin, hflag]

end SentinelSup

namespace SentinelSup

theorem onStdoutData_detected (env : Env) (cp : Nat) (uid d : String)
    (st : SessionState) (ctx : StartCtx)
    (hd : includesStr (jsTrim d) integratedMarker = false) :
    (onStdoutData env cp uid d st ctx).ctx.detectedIntegratedMode =
      ctx.detectedIntegratedMode := by
  simp only [onStdoutData, hd, Bool.false_eq_true, if_false]
  repeat' split
  all_goals rfl

theorem handleEvent_detected (env : Env) (cp : Nat) (uid : String)
    (e : ChildEvent) (st : SessionState) (ctx : StartCtx)
    (h : ∀ d, e = ChildEvent.stdoutData d →
      includesStr (jsTrim d) integratedMarker = false) :
    (handleEvent env cp uid e st ctx).ctx.detectedIntegratedMode =
      ctx.detectedIntegratedMode := by
  cases e with
  | stdoutData s =>
    exact onStdoutData_detected env cp uid s st ctx (h s rfl)
  | stderrData s => rw [handleEvent, onStderrData_ctx]
  | closed c sg => rfl
  | spawnError m => rfl

theorem processEvents_no_integrated (env : Env) (cp : Nat) (uid : String)
    (events : List ChildEvent) :
    ∀ st ctx, (∀ d, ChildEvent.stdoutData d ∈ events →
        includesStr (jsTrim d) integratedMarker = false) →
      ctx.detectedIntegratedMode = false →
      (processEvents env cp uid events st ctx).ctx.detectedIntegratedMode
        = false := by
  induction events with
  | nil => intro st ctx _ h0; exact h0
  | cons e es ih =>
    intro st ctx hnomark h0
    rw [processEvents]
    exact ih _ _ (fun d hd => hnomark d (List.mem_cons_of_mem e hd))
      (by rw [handleEvent_detected env cp uid e st ctx
        (fun d hd => hnomark d (hd ▸ List.mem_cons_self e es))]; exact h0)

theorem start_updates_reqAdmin (env : Env) (scriptExists : Bool)
    (fs : List String → Bool) (w : String → Bool)
    (spawnResult : Option Handle) (alive1 : Nat → Bool)
    (k : Except String Unit) (events : List ChildEvent)
    (alive2 : Nat → Bool) (userId : Option String) (st : SessionState)
    (hflag : st.requireAdminPrivileges = false) (u : StatusUpdate)
    (hu : Msg.statusUpdate u ∈ (startSentinelMonitor env scriptExists fs w
      spawnResult alive1 k events alive2 userId st).msgs) :
    u.requiresAdmin ≠ some true := by
  rcases hg : startGuard env alive1 k { st with sentinelUserId := userId }
    with ⟨stG, msgsG, actsG⟩
  have hflagG : stG.requireAdminPrivileges = false := by
    have h := (startGuard_fields env alive1 k
      { st with sentinelUserId := userId }).1
    rw [hg] at h
    simpa [hflag] using h
  have hstopOk : ∀ v : StatusUpdate, Msg.statusUpdate v ∈ msgsG →
      v.requiresAdmin ≠ some true := by
    intro v hv
    exact startGuard_updates_reqAdmin env alive1 k
      { st with sentinelUserId := userId } (by simp [hflag]) v
      (by rw [hg]; exact hv)
  have hwinOk : ∀ (cp : Nat) (uid : String) (stX : SessionState)
      (ctxX : StartCtx), stX.requireAdminPrivileges = false →
      ∀ v, Msg.statusUpdate v ∈
        (processEvents env cp uid events stX ctxX).msgs →
        v.requiresAdmin ≠ some true :=
    fun cp uid stX ctxX hX v hv =>
      processEvents_updates_reqAdmin env cp uid events stX ctxX hX v hv
  have hwinFlag : ∀ (cp : Nat) (uid : String) (stX : SessionState)
      (ctxX : StartCtx),
      (processEvents env cp uid events stX ctxX).state.requireAdminPrivileges
        = stX.requireAdminPrivileges :=
    fun cp uid stX ctxX =>
      (processEvents_preserves env cp uid events stX ctxX).2.2
  simp only [startSentinelMonitor, hg] at hu
  rcases userId with _ | uid
  · simp [noUserOut, mkUpdate] at hu
    rcases hu with hu | hu
    · exact hstopOk u hu
    · subst hu
      simp [reqAdmin, hflagG]
  · by_cases huid : uid = ""
    · simp [huid, noUserOut, mkUpdate] at hu
      rcases hu with hu | hu
      · exact hstopOk u hu
      · subst hu
        simp [reqAdmin, hflagG]
    · simp only [reqAdmin, hflagG, Bool.and_false, Bool.false_and] at hu
      cases scriptExists with
      | false =>
        simp [huid, mkUpdate] at hu
        rcases hu with hu | hu
        · exact hstopOk u hu
        · subst hu
          simp
      | true =>
        rcases hres : resolvePython env.platform fs w with _ | py
        · rcases hfind : (venvCandidates env.platform).find? fs with _ | pv <;>
            simp only [hfind] at hu <;>
            · simp [huid, hres, mkUpdate] at hu
              rcases hu with hu | hu
              · exact hstopOk u hu
              · subst hu
                simp
        · rcases spawnResult with _ | h
          · rcases hfind : (venvCandidates env.platform).find? fs with _ | pv <;>
              simp only [hfind] at hu <;>
              · simp [huid, hres, spawnFailOut, mkUpdate] at hu
                rcases hu with hu | hu | hu
                · exact hstopOk u hu
                · subst hu; simp
                · subst hu; simp
          · rcases hpid : h.pid with _ | cp
            · rcases hfind : (venvCandidates env.platform).find? fs with _ | pv <;>
                simp only [hfind] at hu <;>
                · simp [huid, hres, hpid, spawnFailOut, mkUpdate] at hu
                  rcases hu with hu | hu | hu
                  · exact hstopOk u hu
                  · subst hu; simp
                  · subst hu; simp
            · by_cases hcp : cp = 0
              · rcases hfind : (venvCandidates env.platform).find? fs with _ | pv <;>
                  simp only [hfind] at hu <;>
                  · simp [huid, hres, hpid, hcp, spawnFailOut, mkUpdate] at hu
                    rcases hu with hu | hu | hu
                    · exact hstopOk u hu
                    · subst hu; simp
                    · subst hu; simp
              · simp [huid, hres, hpid, hcp] at hu
                repeat' split at hu
                all_goals (
                  simp [mkUpdate] at hu
                  rcases hu with hu | hu | hu | hu
                  · exact hstopOk u hu
                  · subst hu
                    simp
                  · subst hu
                    simp
                  · first
                    | exact hwinOk _ _ _ _ (by simp [hflagG]) u hu
                    | (rcases hu with hu | hu
                       · exact hwinOk _ _ _ _ (by simp [hflagG]) u hu
                       · subst hu
                         simp [reqAdmin, hwinFlag, hflagG]))

end SentinelSup

namespace SentinelSup

theorem start_integrated_false (env : Env) (scriptExists : Bool)
    (fs : List String → Bool) (w : String → Bool)
    (spawnResult : Option Handle) (alive1 : Nat → Bool)
    (k : Except String Unit) (events : List ChildEvent)
    (alive2 : Nat → Bool) (userId : Option String) (st : SessionState)
    (hflag : st.requireAdminPrivileges = false)
    (hnomark : ∀ d, ChildEvent.stdoutData d ∈ events →
      includesStr (jsTrim d) integratedMarker = false) :
    (startSentinelMonitor env scriptExists fs w spawnResult alive1 k events
      alive2 userId st).result.integrated = false := by
  rcases hg : startGuard env alive1 k { st with sentinelUserId := userId }
    with ⟨stG, msgsG, actsG⟩
  have hflagG : stG.requireAdminPrivileges = false := by
    have h := (startGuard_fields env alive1 k
      { st with sentinelUserId := userId }).1
    rw [hg] at h
    simpa [hflag] using h
  have hdet : ∀ (cp : Nat) (uid : String) (stX : SessionState),
      (processEvents env cp uid events stX ctx0).ctx.detectedIntegratedMode
        = false :=
    fun cp uid stX =>
      processEvents_no_integrated env cp uid events stX ctx0 hnomark rfl
  simp only [startSentinelMonitor, hg]
  rcases userId with _ | uid
  · rfl
  · by_cases huid : uid = ""
    · simp [huid, noUserOut]
    · simp only [reqAdmin, hflagG, Bool.and_false, Bool.false_and]
      cases scriptExists with
      | false => simp [huid]
      | true =>
        rcases hres : resolvePython env.platform fs w with _ | py
        · simp [huid, hres]
        · rcases spawnResult with _ | h
          · simp [huid, hres, spawnFailOut]
          · rcases hpid : h.pid with _ | cp
            · simp [huid, hres, hpid, spawnFailOut]
            · by_cases hcp : cp = 0
              · simp [huid, hres, hpid, hcp, spawnFailOut]
              · simp [huid, hres, hpid, hcp, hdet]
                split
                · rfl
                · split <;> rfl

/-- C10: `appConfig.requireAdminPrivileges` is initialised to `false` and
the only assignment in the program (in the `app.whenReady` handler) writes
`false`, so the flag is always `false`; consequently the `requiresAdmin`
expression is `false`, the snapshot returned by `checkSentinelStatus`
carries `requiresAdmin = false`, no status update emitted by the stop or
start paths ever carries `requiresAdmin = true` (updates either omit the
field or carry `false`), the guard of the no-spawn integrated-monitoring
branch of `startSentinelMonitor` is `false` (the branch is never taken),
and — absent the child's integrated-mode output marker — `start` never
reports integrated mode. -/
theorem sentinel_C10_requires_admin_false (isAdmin isDev : Bool) (env : Env)
    (alive alive1 alive2 : Nat → Bool) (k : Except String Unit)
    (scriptExists : Bool) (fs : List String → Bool) (w : String → Bool)
    (spawnResult : Option Handle) (events : List ChildEvent)
    (userId : Option String) (st : SessionState)
    (hflag : st.requireAdminPrivileges = false)
    (hnomark : ∀ d, ChildEvent.stdoutData d ∈ events →
      includesStr (jsTrim d) integratedMarker = false) :
    whenReadyFlagUpdate isAdmin isDev initialRequireAdminPrivileges = false ∧
    reqAdmin env st.requireAdminPrivileges = false ∧
    (checkSentinelStatus env alive st).1.requiresAdmin = false ∧
    (∀ u, Msg.statusUpdate u ∈ (stopSentinelMonitor env k st).msgs →
      u.requiresAdmin ≠ some true) ∧
    (∀ u, Msg.statusUpdate u ∈ (startSentinelMonitor env scriptExists fs w
        spawnResult alive1 k events alive2 userId st).msgs →
      u.requiresAdmin ≠ some true) ∧
    (st.isRunningAsAdmin && reqAdmin env st.requireAdminPrivileges) = false ∧
    (startSentinelMonitor env scriptExists fs w spawnResult alive1 k events
      alive2 userId st).result.integrated = false := by
  refine ⟨?_, ?_, check_reqAdmin_false env alive st hflag,
    fun u hu => stop_updates_reqAdmin env k st hflag u hu,
    fun u hu => start_updates_reqAdmin env scriptExists fs w spawnResult
      alive1 k events alive2 userId st hflag u hu, ?_,
    start_integrated_false env scriptExists fs w spawnResult alive1 k events
      alive2 userId st hflag hnomark⟩
  · cases isAdmin <;> cases isDev <;> rfl
  · simp [reqAdmin, hflag]
  · simp [reqAdmin, hflag]

/-- Witness for C10 at a concrete environment and state. -/
theorem sentinel_C10_requires_admin_false_witness :
    whenReadyFlagUpdate true false initialRequireAdminPrivileges = false ∧
    reqAdmin envLinux (SessionState.requireAdminPrivileges emptyState)
      = false ∧
    (checkSentinelStatus envLinux (fun _ => true)
      emptyState).1.requiresAdmin = false ∧
    (∀ u, Msg.statusUpdate u ∈ (stopSentinelMonitor envLinux (Except.ok ())
        emptyState).msgs → u.requiresAdmin ≠ some true) ∧
    (∀ u, Msg.statusUpdate u ∈ (startSentinelMonitor envLinux true
        (fun _ => true) (fun _ => true) none (fun _ => true) (Except.ok ())
        [] (fun _ => true) (some "u") emptyState).msgs →
      u.requiresAdmin ≠ some true) ∧
    (SessionState.isRunningAsAdmin emptyState &&
      reqAdmin envLinux (SessionState.requireAdminPrivileges emptyState))
        = false ∧
    (startSentinelMonitor envLinux true (fun _ => true) (fun _ => true) none
      (fun _ => true) (Except.ok ()) [] (fun _ => true) (some "u")
      emptyState).result.integrated = false :=
  sentinel_C10_requires_admin_false true false envLinux (fun _ => true)
    (fun _ => true) (fun _ => true) (Except.ok ()) true (fun _ => true)
    (fun _ => true) none [] (some "u") emptyState rfl
    (by intro d hd; cases hd)

end SentinelSup
